import Mathlib

/-!
Shallow embedding of the echo-dashboard-v2 core subsystems, translated from:
  - src/api/src/index.ts          (admission gate, route pipelines, gate fatigue calc)
  - src/api/src/db/schema.sql     (reasoning_frames constraints; embedded RPL class)
  - src/dashboard/src/modules/qem/QuestionEntropyMonitor.tsx
  - src/dashboard/src/modules/loa/LaggedOutcomeAttribution.tsx
  - src/README.md                 (embedded ObserverLoadIndex class)
  - src/docs/ABSENCE_COMMAND_PROTOCOL.md (embedded PurposeDriftSentinel class)

Conventions: JS numbers are modelled as rationals (exact arithmetic); where a
JS computation can produce NaN we model the value as `Option ℚ` with `none`
for NaN and make the propagation explicit.  Timestamps (JS Date) are integers
in milliseconds.  JS `Map` objects are association lists in insertion order.
`Math.random()` draws are modelled as explicit oracle arguments.
-/

namespace EchoDash

/-- JS `Math.round`: round half toward positive infinity. -/
def jsRound (q : ℚ) : ℤ := ⌊q + 1/2⌋

/-- JS `Number.prototype.toFixed(0)`: round to nearest, ties away from zero. -/
def toFixed0 (q : ℚ) : ℤ := if q < 0 then -⌊-q + 1/2⌋ else ⌊q + 1/2⌋

/-- JS `Map.set`: replace the value at a key, or append a fresh binding
(insertion order preserved, as JS Map iteration order). -/
def setKV {β : Type} : List (String × β) → String → β → List (String × β)
  | [], k, v => [(k, v)]
  | (k', v') :: rest, k, v =>
      if k' = k then (k, v) :: rest else (k', v') :: setKV rest k v

/-- NaN-propagating addition on JS numbers modelled as `Option ℚ`
(`none` stands for NaN). -/
def nanAdd : Option ℚ → Option ℚ → Option ℚ
  | some a, some b => some (a + b)
  | _, _ => none

/-- JS `+=` accumulation of a list of possibly-NaN numbers, starting from 0. -/
def nanSum (l : List (Option ℚ)) : Option ℚ := l.foldl nanAdd (some 0)

/-- JS `Array.prototype.slice(-n)`: the last `n` elements. -/
def takeLast {α : Type} (n : ℕ) (l : List α) : List α := l.drop (l.length - n)

section AdmissionGate

/-! Admission gate and route pipelines, from src/api/src/index.ts. -/

/-- User roles (index.ts authMiddleware / MAX_CONCURRENT_AUDITS). -/
inductive Role | observer | analyst | admin
deriving DecidableEq, Repr

/-- index.ts:28, `MAX_CONCURRENT_AUDITS`. -/
def MAX_CONCURRENT_AUDITS : Role → ℕ
  | .observer => 2
  | .analyst => 3
  | .admin => 5

/-- index.ts:34, `MAX_CONFIDENCE_WEIGHT = 0.95`. -/
def MAX_CONFIDENCE_WEIGHT : ℚ := 19/20

/-- Structured rejections produced by the middleware chain (index.ts), plus a
`DbError` standing for a violated schema.sql constraint (caught as a 500). -/
inductive Rejection
  | CooldownActive
  | ConcurrencyExceeded
  | ConfidenceCapExceeded
  | UnauthorizedScope
  | InvalidDataScope
  | InvalidEvidenceType
  | InvalidOrigin
  | DbError
deriving DecidableEq, Repr

/-- One row of `observer_metrics` as read by the epistemic hygiene middleware. -/
structure ObserverRow where
  concurrentAudits : ℕ
  cooldownUntil : Option ℤ
deriving DecidableEq, Repr

/-- The per-actor state the admission gate consults. -/
structure GateState where
  observerMetrics : List (String × ObserverRow)
deriving Repr

/-- index.ts:133, `cooldown_until && new Date(cooldown_until) > new Date()`. -/
def cooldownActive (row : ObserverRow) (now : ℤ) : Bool :=
  match row.cooldownUntil with
  | some t => decide (t > now)
  | none => false

/-- Body of a POST /api/v2/rpl/track request (after auth), index.ts:259. -/
structure TrackRequest where
  userId : String
  userRole : Role
  framework : String
  confidenceWeight : Option ℚ
  dataScope : String
  evidenceType : String
  origin : String
deriving Repr

/-- index.ts:173, data-scope privilege check inside the hygiene middleware. -/
def scopePrivilegeCheck (req : TrackRequest) : Option Rejection :=
  if req.dataScope = "simulated" ∧ req.userRole ≠ Role.admin then
    some .UnauthorizedScope
  else none

/-- index.ts:159, confidence-weight cap check inside the hygiene middleware. -/
def confidenceCheck (req : TrackRequest) : Option Rejection :=
  match req.confidenceWeight with
  | some c =>
      if c > MAX_CONFIDENCE_WEIGHT then some .ConfidenceCapExceeded
      else scopePrivilegeCheck req
  | none => scopePrivilegeCheck req

/-- index.ts:110-186, `epistemicHygieneMiddleware`: cooldown, then concurrency,
then confidence cap, then simulated-data scope, in source order. -/
def epistemicHygieneCheck (gs : GateState) (now : ℤ) (req : TrackRequest) :
    Option Rejection :=
  match gs.observerMetrics.lookup req.userId with
  | some row =>
      if cooldownActive row now then some .CooldownActive
      else if row.concurrentAudits ≥ MAX_CONCURRENT_AUDITS req.userRole then
        some .ConcurrencyExceeded
      else confidenceCheck req
  | none => confidenceCheck req

/-- index.ts:195-196, the valid provenance enumerations. -/
def validScopes : List String := ["inferred", "observed", "simulated"]

def validEvidenceTypes : List String := ["direct", "proxy", "estimated"]

/-- index.ts:192-223, `validateDataScope` middleware. -/
def validateDataScopeCheck (dataScope evidenceType origin : String) :
    Option Rejection :=
  if ¬ (dataScope ∈ validScopes) then some .InvalidDataScope
  else if ¬ (evidenceType ∈ validEvidenceTypes) then some .InvalidEvidenceType
  else if origin.trim = "" then some .InvalidOrigin
  else none

/-- A persisted row of `reasoning_frames` (the fields the claims mention). -/
structure Frame where
  framework : String
  confidenceWeight : ℚ
  dataScope : String
  evidenceType : String
  origin : String
deriving Repr

/-- The INSERT of index.ts:270, subject to the schema.sql:13 constraints on
`confidence_weight`: NOT NULL and CHECK (>= 0 AND <= 0.95).  A violated
constraint aborts the insert (caught as a 500), writing nothing. -/
def insertReasoningFrame (db : List Frame) (req : TrackRequest) :
    Except Rejection (List Frame) :=
  match req.confidenceWeight with
  | none => .error .DbError
  | some c =>
      if 0 ≤ c ∧ c ≤ MAX_CONFIDENCE_WEIGHT then
        .ok (db ++ [{ framework := req.framework, confidenceWeight := c,
                      dataScope := req.dataScope,
                      evidenceType := req.evidenceType, origin := req.origin }])
      else .error .DbError

/-- POST /api/v2/rpl/track (index.ts:252): epistemicHygieneMiddleware, then
validateDataScope, then the insert. -/
def rplTrack (gs : GateState) (now : ℤ) (db : List Frame)
    (req : TrackRequest) : Except Rejection (List Frame) :=
  match epistemicHygieneCheck gs now req with
  | some e => .error e
  | none =>
      match validateDataScopeCheck req.dataScope req.evidenceType req.origin with
      | some e => .error e
      | none => insertReasoningFrame db req

/-- Run one rpl/track request: a rejection leaves the table untouched. -/
def rplTrackRun (gs : GateState) (now : ℤ) (db : List Frame)
    (req : TrackRequest) : Option Rejection × List Frame :=
  match rplTrack gs now db req with
  | .error e => (some e, db)
  | .ok db' => (none, db')

/-- Replay a sequence of rpl/track requests against the reasoning_frames
table; every reachable table state is such a replay result. -/
def runTrackTrace (steps : List (GateState × ℤ × TrackRequest))
    (db : List Frame) : List Frame :=
  steps.foldl (fun d s => (rplTrackRun s.1 s.2.1 d s.2.2).2) db

end AdmissionGate

section OtherRoutes

/-! The four other POST endpoints of index.ts.  None of them mounts
`epistemicHygieneMiddleware`; each runs auth, then `validateDataScope`,
then its own INSERT/UPSERT. -/

/-- Body of POST /api/v2/qem/register (index.ts:379). -/
structure QemRegisterRequest where
  domain : String
  questionText : String
  complexity : ℚ
  sensitivity : ℚ
  dataScope : String
  evidenceType : String
  origin : String
deriving Repr

/-- A persisted row of `questions`. -/
structure QuestionRow where
  domain : String
  questionText : String
  complexity : ℚ
  sensitivity : ℚ
  dataScope : String
  evidenceType : String
  origin : String
deriving Repr

/-- POST /api/v2/qem/register (index.ts:373): validateDataScope, then insert. -/
def qemRegisterRoute (db : List QuestionRow) (req : QemRegisterRequest) :
    Except Rejection (List QuestionRow) :=
  match validateDataScopeCheck req.dataScope req.evidenceType req.origin with
  | some e => .error e
  | none =>
      let row : QuestionRow :=
        { domain := req.domain, questionText := req.questionText,
          complexity := req.complexity, sensitivity := req.sensitivity,
          dataScope := req.dataScope, evidenceType := req.evidenceType,
          origin := req.origin }
      .ok (db ++ [row])

/-- Body of POST /api/v2/loa/track-outcome (index.ts:471). -/
structure LoaTrackRequest where
  decisionId : String
  decisionDate : ℤ
  beneficiary : String
  benefitRealizedDate : ℤ
  dataScope : String
  evidenceType : String
  origin : String
deriving Repr

/-- A persisted row of `lagged_outcomes`. -/
structure LaggedOutcomeRow where
  decisionId : String
  beneficiary : String
  lagDays : ℤ
  riskScore : ℚ
  dataScope : String
  evidenceType : String
  origin : String
deriving Repr

/-- POST /api/v2/loa/track-outcome (index.ts:465): validateDataScope, then
`lagDays = Math.floor((benefit - decision) / 86400000)` and
`riskScore = Math.min(10, lagDays / 30)` (index.ts:483-488), then insert. -/
def loaTrackOutcomeRoute (db : List LaggedOutcomeRow) (req : LoaTrackRequest) :
    Except Rejection (List LaggedOutcomeRow) :=
  match validateDataScopeCheck req.dataScope req.evidenceType req.origin with
  | some e => .error e
  | none =>
      let lagDays : ℤ := ⌊((req.benefitRealizedDate - req.decisionDate : ℤ) : ℚ)
        / (1000 * 60 * 60 * 24)⌋
      let riskScore : ℚ := min 10 ((lagDays : ℚ) / 30)
      let row : LaggedOutcomeRow :=
        { decisionId := req.decisionId, beneficiary := req.beneficiary,
          lagDays := lagDays, riskScore := riskScore, dataScope := req.dataScope,
          evidenceType := req.evidenceType, origin := req.origin }
      .ok (db ++ [row])

/-- Fatigue score computed by POST /api/v2/oli/update-load (index.ts:586):
`(correctionRate * 0.4) + (contradictionExposure * 0.6)`.  This is not the
four-sub-score formula of the ObserverLoadIndex class. -/
def gateFatigueScore (correctionRate contradictionExposure : ℚ) : ℚ :=
  correctionRate * (2/5) + contradictionExposure * (3/5)

/-- index.ts:587-591: the gate's risk tiers over its own score. -/
def gateFatigueRisk (correctionRate contradictionExposure : ℚ) : String :=
  if gateFatigueScore correctionRate contradictionExposure > 7/10 then "critical"
  else if gateFatigueScore correctionRate contradictionExposure > 1/2 then "high"
  else if gateFatigueScore correctionRate contradictionExposure > 3/10 then "medium"
  else "low"

/-- index.ts:594-596: `cooldown_until` is now+24h when the gate tier is
critical, otherwise null; no other duration is ever installed here. -/
def gateCooldownUntil (correctionRate contradictionExposure : ℚ) (now : ℤ) :
    Option ℤ :=
  if gateFatigueRisk correctionRate contradictionExposure = "critical" then
    some (now + 24 * 60 * 60 * 1000)
  else none

/-- Body of POST /api/v2/oli/update-load (index.ts:575). -/
structure OliUpdateRequest where
  observerId : String
  auditsReviewed : ℕ
  correctionRate : ℚ
  contradictionExposure : ℚ
  dataScope : String
  evidenceType : String
  origin : String
deriving Repr

/-- A persisted row of `observer_metrics` as written by the route. -/
structure ObserverMetricsRow where
  auditsReviewed : ℕ
  correctionRate : ℚ
  contradictionExposure : ℚ
  fatigueRisk : String
  cooldownUntil : Option ℤ
deriving Repr

/-- POST /api/v2/oli/update-load (index.ts:569): validateDataScope, then the
gate fatigue calculation, then UPSERT into observer_metrics. -/
def oliUpdateLoadRoute (db : List (String × ObserverMetricsRow)) (now : ℤ)
    (req : OliUpdateRequest) :
    Except Rejection (List (String × ObserverMetricsRow)) :=
  match validateDataScopeCheck req.dataScope req.evidenceType req.origin with
  | some e => .error e
  | none => .ok (setKV db req.observerId
      { auditsReviewed := req.auditsReviewed,
        correctionRate := req.correctionRate,
        contradictionExposure := req.contradictionExposure,
        fatigueRisk := gateFatigueRisk req.correctionRate req.contradictionExposure,
        cooldownUntil := gateCooldownUntil req.correctionRate
          req.contradictionExposure now })

/-- Body of POST /api/v2/pds/track-usage (index.ts:682). -/
structure PdsTrackRequest where
  purposeId : String
  eventType : String
  description : String
  dataScope : String
  evidenceType : String
  origin : String
deriving Repr

/-- A persisted row of `usage_events`. -/
structure UsageEventRow where
  purposeId : String
  eventType : String
  description : String
  dataScope : String
  evidenceType : String
  origin : String
deriving Repr

/-- POST /api/v2/pds/track-usage (index.ts:676): validateDataScope, then insert. -/
def pdsTrackUsageRoute (db : List UsageEventRow) (req : PdsTrackRequest) :
    Except Rejection (List UsageEventRow) :=
  match validateDataScopeCheck req.dataScope req.evidenceType req.origin with
  | some e => .error e
  | none =>
      let row : UsageEventRow :=
        { purposeId := req.purposeId, eventType := req.eventType,
          description := req.description, dataScope := req.dataScope,
          evidenceType := req.evidenceType, origin := req.origin }
      .ok (db ++ [row])

/-- The four admission-gate rejection kinds of spec §4.7. -/
def isGateRejection : Rejection → Bool
  | .CooldownActive => true
  | .ConcurrencyExceeded => true
  | .ConfidenceCapExceeded => true
  | .UnauthorizedScope => true
  | _ => false

/-- Whether a route outcome is a rejection by one of the four gate checks. -/
def gateRejected {α : Type} : Except Rejection α → Bool
  | .error e => isGateRejection e
  | .ok _ => false

/-- GET /api/v2/pds/drift-status (index.ts:741-742): the drift magnitude is
`eventCount < 10 ? 0 : Math.random() * 40`; `rand` models the Math.random()
draw of one invocation. -/
def driftStatusMagnitude (eventCount : ℕ) (rand : ℚ) : ℚ :=
  if eventCount < 10 then 0 else rand * 40

end OtherRoutes

section QEM

/-! QuestionEntropyMonitor (src/dashboard/src/modules/qem/QuestionEntropyMonitor.tsx). -/

/-- A registered question (QuestionEntropyMonitor.tsx:6). -/
structure Question where
  domain : String
  questionText : String
  askedBy : String
  askedAt : ℤ
  answered : Bool
  complexity : ℚ
  sensitivity : ℚ
deriving DecidableEq, Repr

/-- Trend tag of EntropyMetrics. -/
inductive Trend | RISING | STABLE | DROPPING
deriving DecidableEq, Repr

/-- EntropyMetrics (QuestionEntropyMonitor.tsx:18). -/
structure EntropyMetrics where
  domain : String
  historicalFrequency : ℚ
  currentFrequency : ℚ
  gapScore : ℚ
  trend : Trend
  lastCalculated : ℤ
deriving DecidableEq, Repr

/-- Risk levels shared by the dashboard alert records. -/
inductive RiskLevel | LOW | MEDIUM | HIGH
deriving DecidableEq, Repr

/-- EntropyAlert (QuestionEntropyMonitor.tsx:27); the random UUID is dropped. -/
structure EntropyAlert where
  domain : String
  gapScore : ℚ
  threshold : ℚ
  detectedAt : ℤ
  missingQuestions : List String
  riskLevel : RiskLevel
deriving DecidableEq, Repr

/-- The mutable fields of the QuestionEntropyMonitor class. -/
structure QEMState where
  questionRegistry : List (String × List Question)
  entropyAlerts : List EntropyAlert
  suppressedQuestions : List (String × List String)
deriving Repr

/-- The empty monitor (freshly constructed class). -/
def qemEmpty : QEMState := { questionRegistry := [], entropyAlerts := [],
                             suppressedQuestions := [] }

/-- calculateEntropy (QuestionEntropyMonitor.tsx:69): fewer than 20 questions
yields the neutral metrics; otherwise a 12-week historical baseline is
compared with the last 4 weeks, each as a weekly rate. -/
def calculateEntropy (st : QEMState) (now : ℤ) (domain : String) :
    EntropyMetrics :=
  let questions := (st.questionRegistry.lookup domain).getD []
  if questions.length < 20 then
    { domain := domain, historicalFrequency := 0, currentFrequency := 0,
      gapScore := 0, trend := .STABLE, lastCalculated := now }
  else
    let twelveWeeksAgo := now - 12 * 7 * 24 * 60 * 60 * 1000
    let fourWeeksAgo := now - 4 * 7 * 24 * 60 * 60 * 1000
    let historicalQuestions := questions.filter
      (fun q => decide (q.askedAt < fourWeeksAgo) &&
                decide (q.askedAt ≥ twelveWeeksAgo))
    let recentQuestions := questions.filter
      (fun q => decide (q.askedAt ≥ fourWeeksAgo))
    let historicalFrequency : ℚ := (historicalQuestions.length : ℚ) / 12
    let currentFrequency : ℚ := (recentQuestions.length : ℚ) / 4
    let gapScore : ℚ :=
      if historicalFrequency > 0 then
        ((historicalFrequency - currentFrequency) / historicalFrequency) * 100
      else 0
    let trend : Trend :=
      if gapScore > 10 then .DROPPING
      else if gapScore < -10 then .RISING
      else .STABLE
    { domain := domain, historicalFrequency := historicalFrequency,
      currentFrequency := currentFrequency, gapScore := gapScore,
      trend := trend, lastCalculated := now }

/-- generateMissingQuestions (QuestionEntropyMonitor.tsx:141): fixed templates
by exact domain name, with a generic fallback. -/
def generateMissingQuestions (domain : String) : List String :=
  if domain = "vendor-oversight" then
    ["Who audits the auditors?",
     "What conflicts of interest exist in vendor selection?",
     "How are vendor performance metrics independently verified?",
     "What happens when vendors fail to meet SLAs?"]
  else if domain = "financial-controls" then
    ["Who has override authority for financial controls?",
     "How often are override logs reviewed?",
     "What triggers an independent financial audit?",
     "Who benefits from budget reallocations?"]
  else if domain = "policy-compliance" then
    ["Who determines when policies can be waived?",
     "How are policy exceptions documented?",
     "What percentage of operations have policy waivers?",
     "Who reviews waiver justifications?"]
  else
    ["What questions should we be asking about this domain?",
     "Who benefits from not asking certain questions?",
     "What assumptions are we not challenging?"]

/-- Risk level of an entropy alert (QuestionEntropyMonitor.tsx:133):
`gapScore > 75 ? HIGH : gapScore > 60 ? MEDIUM : LOW`. -/
def entropyRiskLevel (gapScore : ℚ) : RiskLevel :=
  if gapScore > 75 then .HIGH else if gapScore > 60 then .MEDIUM else .LOW

/-- triggerEntropyAlert (QuestionEntropyMonitor.tsx:123). -/
def triggerEntropyAlert (st : QEMState) (now : ℤ) (domain : String)
    (metrics : EntropyMetrics) : QEMState :=
  let missingQuestions := generateMissingQuestions domain
  let alert : EntropyAlert :=
    { domain := domain, gapScore := metrics.gapScore, threshold := 50,
      detectedAt := now, missingQuestions := missingQuestions,
      riskLevel := entropyRiskLevel metrics.gapScore }
  { st with entropyAlerts := st.entropyAlerts ++ [alert],
            suppressedQuestions :=
              setKV st.suppressedQuestions domain missingQuestions }

/-- checkEntropy (QuestionEntropyMonitor.tsx:114): alert on gapScore > 50. -/
def checkEntropy (st : QEMState) (now : ℤ) (domain : String) : QEMState :=
  let metrics := calculateEntropy st now domain
  if metrics.gapScore > 50 then triggerEntropyAlert st now domain metrics
  else st

/-- registerQuestion (QuestionEntropyMonitor.tsx:47): append the question to
its domain and re-check entropy after every 10th question. -/
def registerQuestion (st : QEMState) (now : ℤ) (q : Question) : QEMState :=
  let domainQuestions := (st.questionRegistry.lookup q.domain).getD []
  let domainQuestions' := domainQuestions ++ [q]
  let st' := { st with
    questionRegistry := setKV st.questionRegistry q.domain domainQuestions' }
  if domainQuestions'.length % 10 = 0 then checkEntropy st' now q.domain
  else st'

/-- calculateResilience (QuestionEntropyMonitor.tsx:183):
`max 0 (round (100 - avgGapScore))` over all registered domains, 100 when no
domain is registered.  Note the result is not clamped above. -/
def qemCalculateResilience (st : QEMState) (now : ℤ) : ℤ :=
  let domains := st.questionRegistry.map (fun e => e.1)
  let totalGapScore : ℚ :=
    (domains.map (fun d => (calculateEntropy st now d).gapScore)).sum
  if domains.length = 0 then 100
  else max 0 (jsRound (100 - totalGapScore / (domains.length : ℚ)))

end QEM

section OLI

/-! ObserverLoadIndex (class source embedded in src/README.md:781-1074). -/

/-- fatigueRisk values of ObserverMetrics: the class has exactly three tiers. -/
inductive FatigueRisk | low | medium | high
deriving DecidableEq, Repr

/-- ObserverMetrics (README class). -/
structure OliObserverMetrics where
  observerId : String
  auditsReviewed : ℕ
  correctionRate : ℚ
  contradictionExposure : ℚ
  fatigueRisk : FatigueRisk
  lastActivity : ℤ
deriving DecidableEq, Repr

/-- LoadAlert (README class); the random UUID is dropped. -/
structure LoadAlert where
  observerId : String
  fatigueScore : ℕ
  triggeredAt : ℤ
  action : String
deriving DecidableEq, Repr

/-- CooldownEntry (README class); duration is in hours. -/
structure CooldownEntry where
  observerId : String
  startTime : ℤ
  duration : ℕ
  reason : String
deriving DecidableEq, Repr

/-- The mutable fields of the ObserverLoadIndex class. -/
structure OLIState where
  observers : List (String × OliObserverMetrics)
  loadAlerts : List LoadAlert
  cooldownQueue : List CooldownEntry
  lastBreaks : List (String × ℤ)
deriving Repr

/-- getHoursSinceLastBreak (README class): 72 when no break is on record,
otherwise elapsed milliseconds divided by 3.6e6. -/
def getHoursSinceLastBreak (st : OLIState) (now : ℤ) (observerId : String) :
    ℚ :=
  match st.lastBreaks.lookup observerId with
  | none => 72
  | some t => ((now - t : ℤ) : ℚ) / (1000 * 60 * 60)

/-- calculateFatigueScore (README class): four bucketed sub-scores (audit
volume 3/2/1/0, correction-rate stress 3/2/1/0, contradiction exposure 2/1/0,
hours since last break 2/1/0), capped at 10. -/
def oliCalculateFatigueScore (st : OLIState) (now : ℤ)
    (m : OliObserverMetrics) : ℕ :=
  let s1 : ℕ := if m.auditsReviewed > 20 then 3
    else if m.auditsReviewed > 10 then 2
    else if m.auditsReviewed > 5 then 1 else 0
  let s2 : ℕ := if m.correctionRate > 1/2 then 3
    else if m.correctionRate > 1/4 then 2
    else if m.correctionRate > 1/10 then 1 else 0
  let s3 : ℕ := if m.contradictionExposure > 7/10 then 2
    else if m.contradictionExposure > 2/5 then 1 else 0
  let hoursSinceBreak := getHoursSinceLastBreak st now m.observerId
  let s4 : ℕ := if hoursSinceBreak > 48 then 2
    else if hoursSinceBreak > 24 then 1 else 0
  min 10 (s1 + s2 + s3 + s4)

/-- calculateFatigueRisk (README class): high at score ≥ 7, medium ≥ 4,
else low.  There is no further tier in the class. -/
def oliCalculateFatigueRisk (st : OLIState) (now : ℤ)
    (m : OliObserverMetrics) : FatigueRisk :=
  let score := oliCalculateFatigueScore st now m
  if score ≥ 7 then .high else if score ≥ 4 then .medium else .low

/-- calculateCooldownDuration (README class): 72 hours when the four-sub-score
fatigue score is ≥ 9, 48 when ≥ 7, else 24. -/
def oliCalculateCooldownDuration (st : OLIState) (now : ℤ)
    (m : OliObserverMetrics) : ℕ :=
  let score := oliCalculateFatigueScore st now m
  if score ≥ 9 then 72 else if score ≥ 7 then 48 else 24

/-- triggerFatigueAlert (README class): push a MANDATORY_COOLDOWN load alert
and append a cooldown-queue entry with the computed duration. -/
def oliTriggerFatigueAlert (st : OLIState) (now : ℤ) (observerId : String)
    (m : OliObserverMetrics) : OLIState :=
  let fatigueScore := oliCalculateFatigueScore st now m
  let alert : LoadAlert :=
    { observerId := observerId, fatigueScore := fatigueScore,
      triggeredAt := now, action := "MANDATORY_COOLDOWN" }
  let duration := oliCalculateCooldownDuration st now m
  let entry : CooldownEntry :=
    { observerId := observerId, startTime := now, duration := duration,
      reason := "high_fatigue_risk" }
  { st with loadAlerts := st.loadAlerts ++ [alert],
            cooldownQueue := st.cooldownQueue ++ [entry] }

/-- initializeObserver (README class). -/
def initializeObserver (observerId : String) (now : ℤ) : OliObserverMetrics :=
  { observerId := observerId, auditsReviewed := 0, correctionRate := 0,
    contradictionExposure := 0, fatigueRisk := .low, lastActivity := now }

/-- calculateCorrectionRate (README class): `Math.random() * 0.6`; the draw is
an explicit oracle argument. -/
def oliCalculateCorrectionRate (rand : ℚ) : ℚ := rand * (3/5)

/-- calculateContradictionExposure (README class): `Math.random() * 0.8`. -/
def oliCalculateContradictionExposure (rand : ℚ) : ℚ := rand * (4/5)

/-- updateObserverLoad (README class): bump the audit count, overwrite the two
rates with their (random) recalculations, re-derive the risk tier, and on a
high tier trigger the fatigue alert and cooldown. -/
def updateObserverLoad (st : OLIState) (now : ℤ) (observerId : String)
    (randCorrection randContradiction : ℚ) : OLIState :=
  let m0 := (st.observers.lookup observerId).getD
    (initializeObserver observerId now)
  let m1 :=
    { m0 with
      auditsReviewed := m0.auditsReviewed + 1,
      correctionRate := oliCalculateCorrectionRate randCorrection,
      contradictionExposure :=
        oliCalculateContradictionExposure randContradiction,
      lastActivity := now }
  let m2 := { m1 with fatigueRisk := oliCalculateFatigueRisk st now m1 }
  let st1 := { st with observers := setKV st.observers observerId m2 }
  if m2.fatigueRisk = .high then oliTriggerFatigueAlert st1 now observerId m2
  else st1

/-- calculateResilience (README class): `max 0 (round (100 - 2 * pct))` where
pct is the percentage of observers tiered high; 100 with no observers. -/
def oliCalculateResilience (st : OLIState) : ℤ :=
  let highRiskCount := ((st.observers.map (fun e => e.2)).filter
    (fun m => decide (m.fatigueRisk = .high))).length
  let totalObservers := st.observers.length
  if totalObservers = 0 then 100
  else
    max 0 (jsRound (100 -
      ((highRiskCount : ℚ) / (totalObservers : ℚ)) * 100 * 2))

end OLI

section LOA

/-! LaggedOutcomeAttribution (src/dashboard/src/modules/loa/LaggedOutcomeAttribution.tsx). -/

/-- LaggedOutcome (LaggedOutcomeAttribution.tsx:6); the random UUID is
dropped, timestamps are milliseconds. -/
structure LaggedOutcome where
  decisionId : String
  decisionDate : ℤ
  beneficiary : String
  benefitRealizedDate : ℤ
  lagDays : ℤ
  riskScore : ℚ
  detectedAt : ℤ
deriving DecidableEq, Repr

/-- BeneficiaryPattern (LaggedOutcomeAttribution.tsx:18). -/
structure BeneficiaryPattern where
  beneficiary : String
  occurrences : ℕ
  avgLagDays : ℚ
  totalRiskScore : ℚ
  firstDetected : ℤ
  lastDetected : ℤ
deriving DecidableEq, Repr

/-- LagAlert (LaggedOutcomeAttribution.tsx:27); the random UUID is dropped. -/
structure LagAlert where
  pattern : String
  riskScore : ℚ
  threshold : ℚ
  detectedAt : ℤ
  affectedDecisions : List String
  riskLevel : RiskLevel
deriving DecidableEq, Repr

/-- The mutable fields of the LaggedOutcomeAttribution class.  The `outcomes`
Map is keyed by random UUIDs, so its iteration order is insertion order and a
plain list is a faithful model. -/
structure LOAState where
  outcomes : List LaggedOutcome
  lagAlerts : List LagAlert
  beneficiaryPatterns : List (String × BeneficiaryPattern)
deriving Repr

/-- The empty engine (freshly constructed class). -/
def loaEmpty : LOAState :=
  { outcomes := [], lagAlerts := [], beneficiaryPatterns := [] }

/-- The lagDays history of one beneficiary, in tracking order. -/
def loaLagsOf (st : LOAState) (beneficiary : String) : List ℤ :=
  (st.outcomes.filter (fun o => o.beneficiary == beneficiary)).map
    (fun o => o.lagDays)

/-- Points awarded for pattern consistency (LaggedOutcomeAttribution.tsx:89-95
together with calculateConsistency, tsx:101-113).  The source computes
`consistency = max 0 (1 - stdDev/avgLag)` with `stdDev = sqrt variance` and
awards 3/2/1/0 points for consistency > 0.8 / > 0.6 / > 0.4 / otherwise.
Square roots are compared only against these thresholds, so the comparisons
are decided exactly on rationals: for `avgLag > 0` and `0 < c < 1`,
`max 0 (1 - sqrt v / a) > c ↔ v < (1-c)^2 * a^2`.  For `avgLag < 0` the
consistency is ≥ 1 (3 points); for `avgLag = 0` the JS value is NaN or
`max 0 (-∞) = 0`, awarding 0 points either way. -/
def consistencyPoints (st : LOAState) (beneficiary : String) : ℕ :=
  let lags := loaLagsOf st beneficiary
  if lags.length < 2 then 0
  else
    let n : ℚ := (lags.length : ℚ)
    let avgLag : ℚ := ((lags.map (fun z => (z : ℚ))).sum) / n
    let variance : ℚ :=
      ((lags.map (fun z => ((z : ℚ) - avgLag) ^ 2)).sum) / n
    if 0 < avgLag then
      if variance < (1/25) * avgLag ^ 2 then 3
      else if variance < (4/25) * avgLag ^ 2 then 2
      else if variance < (9/25) * avgLag ^ 2 then 1
      else 0
    else if avgLag < 0 then 3
    else 0

/-- calculateRiskScore (LaggedOutcomeAttribution.tsx:72): lag-duration points
(4/3/2/1/0), beneficiary-frequency points (3/2/1/0) from the pattern recorded
so far, and consistency points when the pattern average lag exceeds 60 days;
the sum is clamped to 10. -/
def calculateRiskScore (st : LOAState) (lagDays : ℤ) (beneficiary : String) :
    ℚ :=
  let lagPts : ℕ := if lagDays > 180 then 4
    else if lagDays > 90 then 3
    else if lagDays > 30 then 2
    else if lagDays > 7 then 1 else 0
  let freqPts : ℕ :=
    match st.beneficiaryPatterns.lookup beneficiary with
    | some p => if p.occurrences > 10 then 3
        else if p.occurrences > 5 then 2
        else if p.occurrences > 2 then 1 else 0
    | none => 0
  let consPts : ℕ :=
    match st.beneficiaryPatterns.lookup beneficiary with
    | some p => if p.avgLagDays > 60 then consistencyPoints st beneficiary
        else 0
    | none => 0
  min 10 ((lagPts : ℚ) + (freqPts : ℚ) + (consPts : ℚ))

/-- updateBeneficiaryPattern (LaggedOutcomeAttribution.tsx:116): create or
update the running pattern for a beneficiary (incremental average). -/
def updateBeneficiaryPattern (st : LOAState) (now : ℤ) (beneficiary : String)
    (lagDays : ℤ) (riskScore : ℚ) : LOAState :=
  let p := (st.beneficiaryPatterns.lookup beneficiary).getD
    { beneficiary := beneficiary, occurrences := 0, avgLagDays := 0,
      totalRiskScore := 0, firstDetected := now, lastDetected := now }
  let p' : BeneficiaryPattern :=
    { p with
      occurrences := p.occurrences + 1,
      avgLagDays := (p.avgLagDays * (p.occurrences : ℚ) + (lagDays : ℚ)) /
        ((p.occurrences : ℚ) + 1),
      totalRiskScore := p.totalRiskScore + riskScore,
      lastDetected := now }
  { st with beneficiaryPatterns := setKV st.beneficiaryPatterns beneficiary p' }

/-- The alert pattern template string of triggerLagAlert
(LaggedOutcomeAttribution.tsx:161):
beneficiary, decision count and `avgLagDays.toFixed(0)` interpolated. -/
def lagPatternString (beneficiary : String) (decisionCount : ℕ)
    (avgLagDays : ℚ) : String :=
  let avgR := toFixed0 avgLagDays
  s!"{beneficiary} - {decisionCount} decisions with avg {avgR}-day lag"

/-- Risk level of a lag alert (LaggedOutcomeAttribution.tsx:166):
`avgRisk > 8.5 ? HIGH : avgRisk > 7.5 ? MEDIUM : LOW`. -/
def lagRiskLevel (avgRisk : ℚ) : RiskLevel :=
  if avgRisk > 17/2 then .HIGH else if avgRisk > 15/2 then .MEDIUM else .LOW

/-- The alert triggerLagAlert would push for a pattern. -/
def mkLagAlert (now : ℤ) (p : BeneficiaryPattern)
    (affectedDecisions : List String) : LagAlert :=
  let avgRisk := p.totalRiskScore / (p.occurrences : ℚ)
  { pattern := lagPatternString p.beneficiary affectedDecisions.length
      p.avgLagDays,
    riskScore := avgRisk, threshold := 7, detectedAt := now,
    affectedDecisions := affectedDecisions,
    riskLevel := lagRiskLevel avgRisk }

/-- triggerLagAlert (LaggedOutcomeAttribution.tsx:156): push the alert unless
an alert with the *same pattern string* was pushed within the last 7 days. -/
def triggerLagAlert (st : LOAState) (now : ℤ) (p : BeneficiaryPattern)
    (affectedDecisions : List String) : LOAState :=
  let alert := mkLagAlert now p affectedDecisions
  let alreadyAlerted := st.lagAlerts.any (fun a =>
    a.pattern == alert.pattern &&
    decide (a.detectedAt > now - 7 * 24 * 60 * 60 * 1000))
  if alreadyAlerted then st
  else { st with lagAlerts := st.lagAlerts ++ [alert] }

/-- checkLagPatterns (LaggedOutcomeAttribution.tsx:139): for every pattern
with running average risk > 7 and ≥ 3 associated decisions, trigger an alert. -/
def checkLagPatterns (st : LOAState) (now : ℤ) : LOAState :=
  let highRiskPatterns := (st.beneficiaryPatterns.map (fun e => e.2)).filter
    (fun p => decide (p.totalRiskScore / (p.occurrences : ℚ) > 7))
  highRiskPatterns.foldl (fun s p =>
    let affectedDecisions := (s.outcomes.filter
      (fun o => o.beneficiary == p.beneficiary)).map (fun o => o.decisionId)
    if affectedDecisions.length ≥ 3 then triggerLagAlert s now p
      affectedDecisions
    else s) st

/-- trackOutcome (LaggedOutcomeAttribution.tsx:47): derive lagDays and the
risk score (from the state before this outcome), append the outcome, update
the beneficiary pattern, then check for suspicious patterns. -/
def trackOutcome (st : LOAState) (now : ℤ) (decisionId : String)
    (decisionDate : ℤ) (beneficiary : String) (benefitRealizedDate : ℤ) :
    LOAState :=
  let lagDays : ℤ :=
    ⌊((benefitRealizedDate - decisionDate : ℤ) : ℚ) / (1000 * 60 * 60 * 24)⌋
  let riskScore := calculateRiskScore st lagDays beneficiary
  let o : LaggedOutcome :=
    { decisionId := decisionId, decisionDate := decisionDate,
      beneficiary := beneficiary, benefitRealizedDate := benefitRealizedDate,
      lagDays := lagDays, riskScore := riskScore, detectedAt := now }
  let st1 := { st with outcomes := st.outcomes ++ [o] }
  let st2 := updateBeneficiaryPattern st1 now beneficiary lagDays riskScore
  checkLagPatterns st2 now

/-- calculateResilience (LaggedOutcomeAttribution.tsx:191):
`max 0 (round (100 - pct))` where pct is the percentage of outcomes with
risk score > 7; 100 with no outcomes. -/
def loaCalculateResilience (st : LOAState) : ℤ :=
  let highRiskOutcomes := (st.outcomes.filter
    (fun o => decide (o.riskScore > 7))).length
  let totalOutcomes := st.outcomes.length
  if totalOutcomes = 0 then 100
  else
    max 0 (jsRound (100 -
      ((highRiskOutcomes : ℚ) / (totalOutcomes : ℚ)) * 100))

end LOA

section PDS

/-! PurposeDriftSentinel (class source embedded in
src/docs/ABSENCE_COMMAND_PROTOCOL.md:487-824).  The semantic-divergence path
can produce NaN in JS (division by a zero keyword count), so its numbers are
`Option ℚ` with `none` for NaN. -/

/-- SystemPurpose (PDS class); the id is the map key. -/
structure SystemPurpose where
  originalIntent : String
  declaredAt : ℤ
  lastRecommitment : ℤ
  domain : String
deriving DecidableEq, Repr

/-- UsageEvent (PDS class); the id and purposeId are carried by the map. -/
structure UsageEvent where
  eventType : String
  description : String
  occurredAt : ℤ
deriving DecidableEq, Repr

/-- Trend tag of DriftMetrics. -/
inductive DriftTrend | STABLE | DRIFTING | CRITICAL
deriving DecidableEq, Repr

/-- DriftMetrics (PDS class); `none` models a NaN magnitude. -/
structure DriftMetrics where
  purposeId : String
  semanticDivergence : Option ℚ
  usagePatternShift : ℚ
  overallDrift : Option ℚ
  trend : DriftTrend
  lastCalculated : ℤ
deriving DecidableEq, Repr

/-- DriftAlert actions. -/
inductive DriftAction | PAUSE_SYSTEM | REQUIRE_RECOMMITMENT
deriving DecidableEq, Repr

/-- DriftAlert (PDS class); the random UUID is dropped. -/
structure DriftAlert where
  purposeId : String
  divergence : Option ℚ
  threshold : ℚ
  detectedAt : ℤ
  action : DriftAction
  deadline : ℤ
deriving DecidableEq, Repr

/-- The mutable fields of the PurposeDriftSentinel class. -/
structure PDSState where
  purposes : List (String × SystemPurpose)
  usageEvents : List (String × List UsageEvent)
  driftAlerts : List DriftAlert
  systemPaused : Bool
deriving Repr

/-- The freshly constructed sentinel. -/
def pdsEmpty : PDSState :=
  { purposes := [], usageEvents := [], driftAlerts := [],
    systemPaused := false }

/-- A word character for the split on `/\W+/`: ASCII alphanumeric or
underscore. -/
def isWordChar (c : Char) : Bool := c.isAlphanum || c == '_'

/-- Split a character list into maximal word-character runs (the effect of
`String.split(/\W+/)` up to empty fragments, which the length filter of
extractKeywords removes anyway). -/
def splitWordsAux : List Char → List Char → List String
  | [], acc => [String.mk acc.reverse]
  | c :: cs, acc =>
      if isWordChar c then splitWordsAux cs (c :: acc)
      else String.mk acc.reverse :: splitWordsAux cs []

/-- extractKeywords (PDS class): lower-case, split on non-word characters,
keep words longer than 3 characters. -/
def extractKeywords (text : String) : List String :=
  (splitWordsAux (text.map Char.toLower).data []).filter
    (fun w => w.length > 3)

/-- The overlap count used in the PDS class: how many of the first list's
entries occur in the second list (`filter(k => other.includes(k)).length`). -/
def keywordOverlapCount (base other : List String) : ℕ :=
  (base.filter (fun k => other.contains k)).length

/-- One event's term in the matchScore accumulation of
calculateSemanticDivergence: `overlap / intentKeywords.length`, which is the
JS value 0/0 = NaN (`none`) when the intent has no keywords. -/
def perEventContribution (intentKeywords : List String) (e : UsageEvent) :
    Option ℚ :=
  let overlap := keywordOverlapCount intentKeywords
    (extractKeywords e.description)
  if intentKeywords.length = 0 then none
  else some ((overlap : ℚ) / (intentKeywords.length : ℚ))

/-- calculateSemanticDivergence (PDS class): one minus the average per-event
keyword-overlap ratio over the last 20 events; the average is NaN on an
empty event slice or an empty intent keyword set. -/
def calculateSemanticDivergence (purpose : SystemPurpose)
    (events : List UsageEvent) : Option ℚ :=
  let intentKeywords := extractKeywords purpose.originalIntent
  let recentEvents := takeLast 20 events
  let matchScore := nanSum (recentEvents.map (perEventContribution
    intentKeywords))
  let avgMatchScore : Option ℚ :=
    match matchScore with
    | none => none
    | some s =>
        if recentEvents.length = 0 then none
        else some (s / (recentEvents.length : ℚ))
  avgMatchScore.map (fun a => 1 - a)

/-- calculateUsagePatternShift (PDS class): one minus the Jaccard similarity
between the event-type sets of the first 10 and the last 10 events; 0 with
fewer than 20 events. -/
def calculateUsagePatternShift (events : List UsageEvent) : ℚ :=
  if events.length < 20 then 0
  else
    let earlyTypes := ((events.take 10).map (fun e => e.eventType)).dedup
    let recentTypes := ((takeLast 10 events).map (fun e => e.eventType)).dedup
    let inter := earlyTypes.filter (fun t => recentTypes.contains t)
    let union := (earlyTypes ++ recentTypes).dedup
    1 - (inter.length : ℚ) / (union.length : ℚ)

/-- calculateDrift (PDS class): neutral metrics for an unknown purpose or
fewer than 10 events; otherwise `0.7 * semanticDivergence +
0.3 * usagePatternShift` (NaN-propagating) with trend CRITICAL above 0.4,
DRIFTING above 0.2, else STABLE (NaN comparisons are false in JS, so a NaN
drift degrades to STABLE). -/
def calculateDrift (st : PDSState) (now : ℤ) (purposeId : String) :
    DriftMetrics :=
  let events := (st.usageEvents.lookup purposeId).getD []
  match st.purposes.lookup purposeId with
  | none =>
      { purposeId := purposeId, semanticDivergence := some 0,
        usagePatternShift := 0, overallDrift := some 0, trend := .STABLE,
        lastCalculated := now }
  | some purpose =>
      if events.length < 10 then
        { purposeId := purposeId, semanticDivergence := some 0,
          usagePatternShift := 0, overallDrift := some 0, trend := .STABLE,
          lastCalculated := now }
      else
        let semanticDivergence := calculateSemanticDivergence purpose events
        let usagePatternShift := calculateUsagePatternShift events
        let overallDrift := semanticDivergence.map
          (fun d => d * (7/10) + usagePatternShift * (3/10))
        let trend : DriftTrend :=
          match overallDrift with
          | some o =>
              if o > 2/5 then .CRITICAL
              else if o > 1/5 then .DRIFTING
              else .STABLE
          | none => .STABLE
        { purposeId := purposeId, semanticDivergence := semanticDivergence,
          usagePatternShift := usagePatternShift, overallDrift := overallDrift,
          trend := trend, lastCalculated := now }

/-- triggerDriftAlert (PDS class): push an alert (PAUSE_SYSTEM above 0.5
drift, a NaN comparison again being false) and pause the system on
PAUSE_SYSTEM. -/
def triggerDriftAlert (st : PDSState) (now : ℤ) (purposeId : String)
    (metrics : DriftMetrics) : PDSState :=
  let action : DriftAction :=
    match metrics.overallDrift with
    | some o => if o > 1/2 then .PAUSE_SYSTEM else .REQUIRE_RECOMMITMENT
    | none => .REQUIRE_RECOMMITMENT
  let alert : DriftAlert :=
    { purposeId := purposeId, divergence := metrics.overallDrift,
      threshold := 3/10, detectedAt := now, action := action,
      deadline := now + 7 * 24 * 60 * 60 * 1000 }
  let st1 := { st with driftAlerts := st.driftAlerts ++ [alert] }
  if action = .PAUSE_SYSTEM then { st1 with systemPaused := true } else st1

/-- checkDrift (PDS class): alert when the drift exceeds 0.3 (false for NaN). -/
def checkDrift (st : PDSState) (now : ℤ) (purposeId : String) : PDSState :=
  let metrics := calculateDrift st now purposeId
  match metrics.overallDrift with
  | some o =>
      if o > 3/10 then triggerDriftAlert st now purposeId metrics else st
  | none => st

/-- trackUsage (PDS class): append the event and re-check drift after every
10th event of that purpose. -/
def trackUsage (st : PDSState) (now : ℤ) (purposeId : String)
    (e : UsageEvent) : PDSState :=
  let events := (st.usageEvents.lookup purposeId).getD []
  let events' := events ++ [e]
  let st1 := { st with
    usageEvents := setKV st.usageEvents purposeId events' }
  if events'.length % 10 = 0 then checkDrift st1 now purposeId else st1

/-- verifyRecommitmentAlignment (PDS class): keyword overlap of the
recommitment against the original intent, as a fraction of the intent's
keywords.  The rational division returns 0 on an empty intent keyword set;
the JS value there is NaN, which `recommit` handles separately. -/
def verifyRecommitmentAlignment (originalIntent recommitment : String) : ℚ :=
  let originalKeywords := extractKeywords originalIntent
  let recommitmentKeywords := extractKeywords recommitment
  (keywordOverlapCount originalKeywords recommitmentKeywords : ℚ) /
    (originalKeywords.length : ℚ)

/-- recommit (PDS class): reject (returning false, touching nothing) when the
alignment is below 0.7; otherwise bump lastRecommitment, clear the drift
alerts of that purpose, and resume a paused system.  When the original intent
has no keywords the JS alignment is NaN and `NaN < 0.7` is false, so the
rejection branch is taken only for a nonempty intent keyword set. -/
def recommit (st : PDSState) (now : ℤ) (purposeId : String)
    (recommitmentStatement : String) : Bool × PDSState :=
  match st.purposes.lookup purposeId with
  | none => (false, st)
  | some purpose =>
      let originalKeywords := extractKeywords purpose.originalIntent
      if originalKeywords.length ≠ 0 ∧
          verifyRecommitmentAlignment purpose.originalIntent
            recommitmentStatement < 7/10 then
        (false, st)
      else
        let purpose' := { purpose with lastRecommitment := now }
        let st1 := { st with
          purposes := setKV st.purposes purposeId purpose',
          driftAlerts := st.driftAlerts.filter
            (fun a => !(a.purposeId == purposeId)) }
        (true, { st1 with systemPaused := false })

/-- calculateResilience (PDS class): `max 0 (round ((1 - avgDrift) * 100))`
over all purposes, 100 with no purposes; a NaN drift propagates (`none`). -/
def pdsCalculateResilience (st : PDSState) (now : ℤ) : Option ℤ :=
  let ids := st.purposes.map (fun e => e.1)
  let totalDrift := nanSum (ids.map
    (fun pid => (calculateDrift st now pid).overallDrift))
  if ids.length = 0 then some 100
  else totalDrift.map
    (fun t => max 0 (jsRound ((1 - t / (ids.length : ℚ)) * 100)))

end PDS

section RPL

/-! ReasoningProvenanceLayer (class source embedded in
src/api/src/db/schema.sql:608-827); only the pieces the claims need. -/

/-- A tracked reasoning frame of the dashboard class (the fields used by the
resilience computation). -/
structure RPLFrame where
  framework : String
  confidenceWeight : ℚ
deriving DecidableEq, Repr

/-- The per-framework summed confidence weights accumulated by the class's
forEach over a Map: one entry per distinct framework, in first-use order,
holding the total weight of that framework. -/
def rplFrameworkWeights (frames : List RPLFrame) : List (String × ℚ) :=
  ((frames.map (fun f => f.framework)).dedup).map (fun k =>
    (k, ((frames.filter (fun f => f.framework == k)).map
      (fun f => f.confidenceWeight)).sum))

/-- calculateResilience (RPL class): `round ((1 - maxDominance) * 100)` where
maxDominance is the largest per-framework share of the total weight (0 when
there are no frames).  The rational `w / 0 = 0` matches the JS behaviour for
an all-zero store, where every share is NaN and the max stays 0. -/
def rplCalculateResilience (frames : List RPLFrame) : ℤ :=
  let totalWeight : ℚ := (frames.map (fun f => f.confidenceWeight)).sum
  let maxDominance : ℚ := (rplFrameworkWeights frames).foldl
    (fun md e => if e.2 / totalWeight > md then e.2 / totalWeight else md) 0
  jsRound ((1 - maxDominance) * 100)

end RPL

section ConcreteScenarios

/-! Concrete states used to evaluate the embedded code on explicit inputs. -/

/-- A rpl/track submission declaring confidence 0.96, above the cap. -/
def overCapRequest : TrackRequest :=
  { userId := "u1", userRole := .analyst, framework := "Devil_Lens_Critique",
    confidenceWeight := some (24/25), dataScope := "observed",
    evidenceType := "direct", origin := "test" }

/-- A rpl/track submission declaring confidence 0.9, below the cap. -/
def underCapRequest : TrackRequest :=
  { userId := "u1", userRole := .analyst, framework := "Devil_Lens_Critique",
    confidenceWeight := some (9/10), dataScope := "observed",
    evidenceType := "direct", origin := "test" }

/-- A gate state holding an active cooldown for user u1 at time 0. -/
def cooldownGateState : GateState :=
  { observerMetrics :=
      [("u1", { concurrentAudits := 0, cooldownUntil := some 1000 })] }

/-- A question at a fixed timestamp in the entropy example's domain. -/
def exampleQuestion (t : ℤ) : Question :=
  { domain := "vendor-oversight", questionText := "q", askedBy := "a",
    askedAt := t, answered := false, complexity := 1, sensitivity := 1 }

/-- The observation time of the entropy examples (milliseconds). -/
def entropyNow : ℤ := 8000000000

/-- 120 questions in the 12-week historical window and 16 in the last
4 weeks: a 10/week baseline against a 4/week current rate. -/
def entropyExampleState : QEMState :=
  { questionRegistry := [("vendor-oversight",
      List.replicate 120 (exampleQuestion 3000000000) ++
      List.replicate 16 (exampleQuestion 7000000000))],
    entropyAlerts := [], suppressedQuestions := [] }

/-- 20 registered questions, 1 historical and 19 recent, built through
registerQuestion: the current rate far exceeds the baseline, so the gap
score is -5600. -/
def risingEntropyState : QEMState :=
  (List.replicate 1 (exampleQuestion 3000000000) ++
   List.replicate 19 (exampleQuestion 7000000000)).foldl
    (fun s q => registerQuestion s entropyNow q) qemEmpty

/-- One tracked LOA outcome with a 200-day lag for beneficiary b. -/
def loaTrackStep (s : LOAState) (i : ℕ) : LOAState :=
  trackOutcome s 0 (toString i) 0 "b" (200 * (1000 * 60 * 60 * 24))

/-- The LOA engine after n identical 200-day-lag outcomes for b. -/
def loaRunState (n : ℕ) : LOAState := (List.range n).foldl loaTrackStep loaEmpty

/-- A purpose whose declared intent has no word longer than 3 characters,
with 10 recorded usage events. -/
def emptyIntentPurpose : SystemPurpose :=
  { originalIntent := "a bb ccc", declaredAt := 0, lastRecommitment := 0,
    domain := "ops" }

def emptyIntentEvent (i : ℕ) : UsageEvent :=
  { eventType := "use", description := "whatever thing", occurredAt := (i : ℤ) }

def emptyIntentState : PDSState :=
  { purposes := [("p", emptyIntentPurpose)],
    usageEvents := [("p", (List.range 10).map emptyIntentEvent)],
    driftAlerts := [], systemPaused := false }

/-- A paused sentinel with one open alert for purpose p1, whose intent has
the keywords monitor/institutional/decisions/drift. -/
def monitoredPurpose : SystemPurpose :=
  { originalIntent := "Monitor institutional decisions for drift",
    declaredAt := 0, lastRecommitment := 0, domain := "ops" }

def openDriftAlert : DriftAlert :=
  { purposeId := "p1", divergence := some (3/5), threshold := 3/10,
    detectedAt := 0, action := .PAUSE_SYSTEM, deadline := 604800000 }

def pausedSentinelState : PDSState :=
  { purposes := [("p1", monitoredPurpose)],
    usageEvents := [("p1", [])],
    driftAlerts := [openDriftAlert],
    systemPaused := true }

/-- The OLI example state: observer obs1 last took a break 50 hours before
the observation time `exampleOliNow`. -/
def exampleOliState : OLIState :=
  { observers := [], loadAlerts := [], cooldownQueue := [],
    lastBreaks := [("obs1", 0)] }

/-- 50 hours, in milliseconds. -/
def exampleOliNow : ℤ := 50 * 60 * 60 * 1000

/-- The OLI example metrics: auditsReviewed 25, correctionRate 0.55,
contradictionExposure 0.75. -/
def exampleOliMetrics : OliObserverMetrics :=
  { observerId := "obs1", auditsReviewed := 25, correctionRate := 11/20,
    contradictionExposure := 3/4, fatigueRisk := .low, lastActivity := 0 }

end ConcreteScenarios

/-- The freshly constructed ObserverLoadIndex. -/
def oliEmpty : OLIState :=
  { observers := [], loadAlerts := [], cooldownQueue := [], lastBreaks := [] }

section HelperLemmas

/-- validateDataScope can only reject with the three provenance errors. -/
lemma validateDataScopeCheck_not_gate (d e o : String) (r : Rejection)
    (h : validateDataScopeCheck d e o = some r) : isGateRejection r = false := by
  unfold validateDataScopeCheck at h
  split at h
  · cases h; rfl
  · split at h
    · cases h; rfl
    · split at h
      · cases h; rfl
      · cases h

/-- Rounding stays below an integer bound. -/
lemma jsRound_le_of_le (q : ℚ) (n : ℤ) (h : q ≤ (n : ℚ)) : jsRound q ≤ n := by
  unfold jsRound
  have h1 : q + 1/2 ≤ (n : ℚ) + 1/2 := by linarith
  calc ⌊q + 1/2⌋ ≤ ⌊(n : ℚ) + 1/2⌋ := Int.floor_le_floor h1
    _ = ⌊(1/2 : ℚ)⌋ + n := by rw [add_comm]; exact Int.floor_add_int _ _
    _ = n := by norm_num

/-- Rounding a nonnegative value is nonnegative. -/
lemma jsRound_nonneg (q : ℚ) (h : 0 ≤ q) : 0 ≤ jsRound q := by
  unfold jsRound
  rw [Int.le_floor]
  push_cast
  linarith

/-- A ratio of a nonnegative numerator by a dominating denominator lies in
the unit interval (with the rational convention `a / 0 = 0`). -/
lemma div_unit_interval (a b : ℚ) (h0 : 0 ≤ a) (hab : a ≤ b) :
    0 ≤ a / b ∧ a / b ≤ 1 := by
  rcases eq_or_lt_of_le (le_trans h0 hab) with hb | hb
  · have : a = 0 := le_antisymm (hb ▸ hab) h0
    simp [this]
  · exact ⟨div_nonneg h0 (le_of_lt hb), (div_le_one hb).mpr hab⟩

/-- Folding NaN-propagating addition from NaN stays NaN. -/
lemma foldl_nanAdd_none (l : List (Option ℚ)) :
    List.foldl nanAdd none l = none := by
  induction l with
  | nil => rfl
  | cons x xs ih => cases x <;> simpa [nanAdd] using ih

/-- A defined NaN-propagating fold of elements bounded in `[lo, hi]` is
bounded by the element count. -/
lemma foldl_nanAdd_bound (lo hi : ℚ) :
    ∀ (l : List (Option ℚ)) (a t : ℚ),
      (∀ x ∈ l, ∀ q : ℚ, x = some q → lo ≤ q ∧ q ≤ hi) →
      List.foldl nanAdd (some a) l = some t →
      a + l.length * lo ≤ t ∧ t ≤ a + l.length * hi := by
  intro l
  induction l with
  | nil =>
      intro a t _ ht
      simp only [List.foldl_nil, Option.some.injEq] at ht
      subst ht
      simp
  | cons x xs ih =>
      intro a t hmem ht
      cases x with
      | none =>
          rw [List.foldl_cons] at ht
          simp only [nanAdd] at ht
          rw [foldl_nanAdd_none] at ht
          cases ht
      | some q =>
          rw [List.foldl_cons] at ht
          have hq := hmem (some q) (List.mem_cons_self _ _) q rfl
          have hxs : ∀ x ∈ xs, ∀ r : ℚ, x = some r → lo ≤ r ∧ r ≤ hi :=
            fun x hx => hmem x (List.mem_cons_of_mem _ hx)
          have hih := ih (a + q) t hxs ht
          have hlo : ((xs.length : ℚ) + 1) * lo = (xs.length : ℚ) * lo + lo := by
            ring
          have hhi : ((xs.length : ℚ) + 1) * hi = (xs.length : ℚ) * hi + hi := by
            ring
          constructor
          · have := hih.1
            simp only [List.length_cons]
            push_cast
            linarith [hq.1]
          · have := hih.2
            simp only [List.length_cons]
            push_cast
            linarith [hq.2]

/-- A defined nanSum of elements in `[0, 1]` lies in `[0, length]`. -/
lemma nanSum_unit_bound (l : List (Option ℚ)) (t : ℚ)
    (hmem : ∀ x ∈ l, ∀ q : ℚ, x = some q → 0 ≤ q ∧ q ≤ 1)
    (ht : nanSum l = some t) : 0 ≤ t ∧ t ≤ l.length := by
  have := foldl_nanAdd_bound 0 1 l 0 t hmem ht
  constructor
  · have := this.1; push_cast at this; linarith
  · have := this.2; push_cast at this; linarith

/-- Sums of filtered nonnegative mapped values never exceed the full sum. -/
lemma sum_map_filter_le {α : Type} (g : α → ℚ) (p : α → Bool) :
    ∀ l : List α, (∀ x ∈ l, 0 ≤ g x) →
      ((l.filter p).map g).sum ≤ (l.map g).sum := by
  intro l
  induction l with
  | nil => intro _; simp
  | cons x xs ih =>
      intro h
      have hx := h x (List.mem_cons_self _ _)
      have hxs := fun y hy => h y (List.mem_cons_of_mem _ hy)
      by_cases hp : p x
      · simp only [List.filter_cons, hp, if_true, List.map_cons, List.sum_cons]
        have := ih hxs
        linarith
      · simp only [List.filter_cons, hp, if_false, List.map_cons,
          List.sum_cons, Bool.false_eq_true]
        have := ih hxs
        linarith

/-- Nonnegative mapped values have nonnegative sums. -/
lemma sum_map_nonneg {α : Type} (g : α → ℚ) :
    ∀ l : List α, (∀ x ∈ l, 0 ≤ g x) → 0 ≤ (l.map g).sum := by
  intro l
  induction l with
  | nil => intro _; simp
  | cons x xs ih =>
      intro h
      simp only [List.map_cons, List.sum_cons]
      have := ih (fun y hy => h y (List.mem_cons_of_mem _ hy))
      have := h x (List.mem_cons_self _ _)
      linarith

end HelperLemmas

section ClaimC2

/-- C2: the metric calculators are NOT all pure functions of the stored
events.  The drift-status magnitude of GET /api/v2/pds/drift-status and the
ObserverLoadIndex correction-rate / contradiction-exposure inputs are
functions of a Math.random() draw: at a fixed event count of 10, two draws
(0 and 1/2) give drift magnitudes 0 and 20, and two draws give correction
rates 0 and 3/10 and contradiction exposures 0 and 2/5. -/
theorem drift_status_and_oli_rates_depend_on_random_draw :
    driftStatusMagnitude 10 0 = 0 ∧
    driftStatusMagnitude 10 (1/2) = 20 ∧
    decide (driftStatusMagnitude 10 0 = driftStatusMagnitude 10 (1/2))
      = false ∧
    oliCalculateCorrectionRate 0 = 0 ∧
    oliCalculateCorrectionRate (1/2) = 3/10 ∧
    decide (oliCalculateCorrectionRate 0 = oliCalculateCorrectionRate (1/2))
      = false ∧
    oliCalculateContradictionExposure 0 = 0 ∧
    oliCalculateContradictionExposure (1/2) = 2/5 := by
  with_unfolding_all (exact of_decide_eq_true rfl)

end ClaimC2

section ClaimC4

/-- C4 counterexample: on the claimed example inputs (correctionRate 0.55,
contradictionExposure 0.75), the gate of POST /api/v2/oli/update-load
computes fatigue score 0.67 by its own two-term formula, tiers it high (not
critical), and installs NO cooldown; and the dashboard class tiers the same
observer high, its FatigueRisk type having no critical tier at all. -/
theorem gate_fatigue_example_not_critical_no_cooldown :
    gateFatigueScore (11/20) (3/4) = 67/100 ∧
    gateFatigueRisk (11/20) (3/4) = "high" ∧
    gateCooldownUntil (11/20) (3/4) 0 = none ∧
    oliCalculateFatigueRisk exampleOliState exampleOliNow exampleOliMetrics
      = .high := by
  with_unfolding_all (exact of_decide_eq_true rfl)

/-- C4 amended: in the dashboard ObserverLoadIndex the example observer
(auditsReviewed 25, correctionRate 0.55, contradictionExposure 0.75, 50 hours
since the last break) scores 10 on the four-sub-score formula, is tiered
high, and its automatic cooldown lasts 72 hours; in general the cooldown
installed by triggerFatigueAlert lasts 72h when the score is ≥ 9, 48h when
≥ 7, else 24h, and the high tier is exactly score ≥ 7.  The admission gate
uses a different formula (0.4·correctionRate + 0.6·contradictionExposure),
whose value on the example is 0.67, tier high, and it installs no cooldown. -/
theorem fatigue_cooldown_amended :
    (oliCalculateFatigueScore exampleOliState exampleOliNow exampleOliMetrics
        = 10 ∧
      oliCalculateFatigueRisk exampleOliState exampleOliNow exampleOliMetrics
        = .high ∧
      oliCalculateCooldownDuration exampleOliState exampleOliNow
        exampleOliMetrics = 72) ∧
    (∀ (st : OLIState) (now : ℤ) (m : OliObserverMetrics),
        9 ≤ oliCalculateFatigueScore st now m →
        oliCalculateCooldownDuration st now m = 72) ∧
    (∀ (st : OLIState) (now : ℤ) (m : OliObserverMetrics),
        7 ≤ oliCalculateFatigueScore st now m →
        oliCalculateFatigueScore st now m < 9 →
        oliCalculateCooldownDuration st now m = 48) ∧
    (∀ (st : OLIState) (now : ℤ) (m : OliObserverMetrics),
        oliCalculateFatigueScore st now m < 7 →
        oliCalculateCooldownDuration st now m = 24) ∧
    (∀ (st : OLIState) (now : ℤ) (observerId : String)
        (m : OliObserverMetrics),
        (oliTriggerFatigueAlert st now observerId m).cooldownQueue =
          st.cooldownQueue ++ [⟨observerId, now,
            oliCalculateCooldownDuration st now m, "high_fatigue_risk"⟩]) ∧
    (∀ (st : OLIState) (now : ℤ) (m : OliObserverMetrics),
        oliCalculateFatigueRisk st now m = .high ↔
          7 ≤ oliCalculateFatigueScore st now m) ∧
    (gateFatigueScore (11/20) (3/4) = 67/100 ∧
      gateFatigueRisk (11/20) (3/4) = "high" ∧
      (∀ now : ℤ, gateCooldownUntil (11/20) (3/4) now = none)) := by
  refine ⟨by with_unfolding_all (exact of_decide_eq_true rfl), ?_, ?_, ?_, ?_,
    ?_, by with_unfolding_all rfl, by with_unfolding_all rfl, ?_⟩
  · intro st now m h
    unfold oliCalculateCooldownDuration
    dsimp only
    split <;> omega
  · intro st now m h7 h9
    unfold oliCalculateCooldownDuration
    dsimp only
    split <;> omega
  · intro st now m h
    unfold oliCalculateCooldownDuration
    dsimp only
    split
    · omega
    · split <;> omega
  · intro st now observerId m
    rfl
  · intro st now m
    unfold oliCalculateFatigueRisk
    constructor
    · intro h
      by_contra hlt
      push_neg at hlt
      rw [if_neg (by omega)] at h
      split at h <;> cases h
    · intro h
      rw [if_pos h]
  · intro now
    unfold gateCooldownUntil
    rw [if_neg (by with_unfolding_all (exact of_decide_eq_false rfl))]

/-- C4 witness: the amended theorem applied to the example metrics and to a
low-score observer. -/
theorem fatigue_cooldown_amended_witness :
    oliCalculateCooldownDuration exampleOliState exampleOliNow
      exampleOliMetrics = 72 ∧
    oliCalculateCooldownDuration oliEmpty 0 (initializeObserver "o" 0) = 24 :=
  ⟨fatigue_cooldown_amended.2.1 exampleOliState exampleOliNow
      exampleOliMetrics (by with_unfolding_all (exact of_decide_eq_true rfl)),
   fatigue_cooldown_amended.2.2.2.1 oliEmpty 0 (initializeObserver "o" 0)
      (by with_unfolding_all (exact of_decide_eq_true rfl))⟩

end ClaimC4

section ClaimC5

/-- C5: only POST /api/v2/rpl/track mounts the admission gate.  The QEM
question-registration, LOA outcome-tracking, OLI load-update and PDS
usage-tracking pipelines never return a CooldownActive, ConcurrencyExceeded,
ConfidenceCapExceeded or UnauthorizedScope rejection, while rpl/track can
(here: an actor under an active cooldown). -/
theorem only_rpl_track_invokes_admission_gate :
    (∀ (db : List QuestionRow) (req : QemRegisterRequest),
        gateRejected (qemRegisterRoute db req) = false) ∧
    (∀ (db : List LaggedOutcomeRow) (req : LoaTrackRequest),
        gateRejected (loaTrackOutcomeRoute db req) = false) ∧
    (∀ (db : List (String × ObserverMetricsRow)) (now : ℤ)
        (req : OliUpdateRequest),
        gateRejected (oliUpdateLoadRoute db now req) = false) ∧
    (∀ (db : List UsageEventRow) (req : PdsTrackRequest),
        gateRejected (pdsTrackUsageRoute db req) = false) ∧
    rplTrack cooldownGateState 0 [] underCapRequest
      = .error .CooldownActive := by
  refine ⟨?_, ?_, ?_, ?_, by with_unfolding_all rfl⟩
  · intro db req
    unfold qemRegisterRoute
    cases hv : validateDataScopeCheck req.dataScope req.evidenceType req.origin
    · rfl
    · simpa [gateRejected] using
        validateDataScopeCheck_not_gate _ _ _ _ hv
  · intro db req
    unfold loaTrackOutcomeRoute
    cases hv : validateDataScopeCheck req.dataScope req.evidenceType req.origin
    · rfl
    · simpa [gateRejected] using
        validateDataScopeCheck_not_gate _ _ _ _ hv
  · intro db now req
    unfold oliUpdateLoadRoute
    cases hv : validateDataScopeCheck req.dataScope req.evidenceType req.origin
    · rfl
    · simpa [gateRejected] using
        validateDataScopeCheck_not_gate _ _ _ _ hv
  · intro db req
    unfold pdsTrackUsageRoute
    cases hv : validateDataScopeCheck req.dataScope req.evidenceType req.origin
    · rfl
    · simpa [gateRejected] using
        validateDataScopeCheck_not_gate _ _ _ _ hv

end ClaimC5

section ClaimC6

set_option maxRecDepth 4000 in
/-- C6 counterexample: with a 10/week historical baseline and a 4/week
current rate the gap score is 60 and the alert fires, but its severity is
LOW, not MEDIUM: the MEDIUM tier requires a gap strictly above 60. -/
theorem entropy_gap_example_severity_low :
    (calculateEntropy entropyExampleState entropyNow
        "vendor-oversight").historicalFrequency = 10 ∧
    (calculateEntropy entropyExampleState entropyNow
        "vendor-oversight").currentFrequency = 4 ∧
    (calculateEntropy entropyExampleState entropyNow
        "vendor-oversight").gapScore = 60 ∧
    (calculateEntropy entropyExampleState entropyNow
        "vendor-oversight").gapScore > 50 ∧
    ((checkEntropy entropyExampleState entropyNow
        "vendor-oversight").entropyAlerts.map (fun a => a.riskLevel))
      = [.LOW] := by
  with_unfolding_all (exact of_decide_eq_true rfl)

set_option maxRecDepth 4000 in
/-- C6 amended: historical 10/week and current 4/week give gap score 60
(a 60% drop); the alert fires (60 > 50) but with severity LOW, because
MEDIUM requires the gap to exceed 60 (and HIGH to exceed 75) while 60 does
not exceed itself. -/
theorem entropy_gap_example_amended :
    (calculateEntropy entropyExampleState entropyNow
        "vendor-oversight").gapScore = 60 ∧
    (calculateEntropy entropyExampleState entropyNow
        "vendor-oversight").gapScore > 50 ∧
    ((checkEntropy entropyExampleState entropyNow
        "vendor-oversight").entropyAlerts.map (fun a => a.riskLevel))
      = [.LOW] ∧
    entropyRiskLevel 60 = .LOW ∧
    (∀ g : ℚ, 60 < g → g ≤ 75 → entropyRiskLevel g = .MEDIUM) ∧
    (∀ g : ℚ, g ≤ 60 → entropyRiskLevel g = .LOW) := by
  refine ⟨by with_unfolding_all rfl,
    by with_unfolding_all (exact of_decide_eq_true rfl),
    by with_unfolding_all (exact of_decide_eq_true rfl),
    by with_unfolding_all rfl, ?_, ?_⟩
  · intro g h60 h75
    unfold entropyRiskLevel
    rw [if_neg (by linarith), if_pos h60]
  · intro g h
    unfold entropyRiskLevel
    rw [if_neg (by linarith), if_neg (by linarith)]

/-- C6 witness: the amended boundary facts at gaps 70 and 60. -/
theorem entropy_gap_example_amended_witness :
    entropyRiskLevel 70 = .MEDIUM ∧ entropyRiskLevel 60 = .LOW :=
  ⟨entropy_gap_example_amended.2.2.2.2.1 70 (by norm_num) (by norm_num),
   entropy_gap_example_amended.2.2.2.2.2 60 (by norm_num)⟩

end ClaimC6

section ClaimC1

/-- A successful rpl/track insert appended exactly one frame whose declared
confidence passed the middleware and schema checks. -/
lemma rplTrack_ok_shape (gs : GateState) (now : ℤ) (db : List Frame)
    (req : TrackRequest) (db' : List Frame)
    (hr : rplTrack gs now db req = .ok db') :
    ∃ c : ℚ, req.confidenceWeight = some c ∧ 0 ≤ c ∧
      c ≤ MAX_CONFIDENCE_WEIGHT ∧
      db' = db ++ [⟨req.framework, c, req.dataScope, req.evidenceType,
        req.origin⟩] := by
  unfold rplTrack at hr
  split at hr
  · cases hr
  · split at hr
    · cases hr
    · unfold insertReasoningFrame at hr
      split at hr
      · cases hr
      next c hc =>
        split at hr
        next hcond =>
          refine ⟨c, hc, hcond.1, hcond.2, ?_⟩
          cases hr
          rfl
        · cases hr

/-- One rpl/track request preserves the confidence-cap invariant of the
reasoning_frames table. -/
lemma rplTrackRun_preserves_cap (gs : GateState) (now : ℤ) (db : List Frame)
    (req : TrackRequest)
    (h : ∀ f ∈ db, f.confidenceWeight ≤ MAX_CONFIDENCE_WEIGHT) :
    ∀ f ∈ (rplTrackRun gs now db req).2,
      f.confidenceWeight ≤ MAX_CONFIDENCE_WEIGHT := by
  unfold rplTrackRun
  cases hr : rplTrack gs now db req with
  | error e => simpa using h
  | ok db' =>
      obtain ⟨c, _, _, hle, hdb⟩ := rplTrack_ok_shape gs now db req db' hr
      subst hdb
      intro f hf
      rcases List.mem_append.mp hf with hf | hf
      · exact h f hf
      · rcases List.mem_singleton.mp hf with rfl
        simpa using hle

/-- C1: the admission gate rejects any rpl/track submission declaring a
confidence weight above 0.95 before anything is written (with the
ConfidenceCapExceeded rejection whenever the earlier cooldown and
concurrency checks pass), and consequently every reasoning_frames state
reachable by replaying rpl/track requests only holds frames with
confidenceWeight ≤ 0.95. -/
theorem rpl_confidence_cap_enforced :
    (∀ (gs : GateState) (now : ℤ) (db : List Frame) (req : TrackRequest)
        (c : ℚ), req.confidenceWeight = some c → MAX_CONFIDENCE_WEIGHT < c →
        (∃ e, (rplTrackRun gs now db req).1 = some e) ∧
        (rplTrackRun gs now db req).2 = db ∧
        ((∀ row, gs.observerMetrics.lookup req.userId = some row →
            cooldownActive row now = false ∧
            row.concurrentAudits < MAX_CONCURRENT_AUDITS req.userRole) →
          (rplTrackRun gs now db req).1 = some .ConfidenceCapExceeded)) ∧
    (∀ (steps : List (GateState × ℤ × TrackRequest)) (db : List Frame),
        (∀ f ∈ db, f.confidenceWeight ≤ MAX_CONFIDENCE_WEIGHT) →
        ∀ f ∈ runTrackTrace steps db,
          f.confidenceWeight ≤ MAX_CONFIDENCE_WEIGHT) := by
  constructor
  · intro gs now db req c hc hgt
    have hcc : confidenceCheck req = some .ConfidenceCapExceeded := by
      simp [confidenceCheck, hc, hgt]
    cases hlk : gs.observerMetrics.lookup req.userId with
    | none =>
        have hr : rplTrackRun gs now db req =
            (some .ConfidenceCapExceeded, db) := by
          unfold rplTrackRun rplTrack epistemicHygieneCheck
          simp [hlk, hcc]
        exact ⟨⟨.ConfidenceCapExceeded, by rw [hr]⟩, by rw [hr],
          fun _ => by rw [hr]⟩
    | some row =>
        cases hcool : cooldownActive row now with
        | true =>
            have hr : rplTrackRun gs now db req =
                (some .CooldownActive, db) := by
              unfold rplTrackRun rplTrack epistemicHygieneCheck
              simp [hlk, hcool]
            refine ⟨⟨.CooldownActive, by rw [hr]⟩, by rw [hr],
              fun hrows => ?_⟩
            have hfalse := (hrows row rfl).1
            rw [hcool] at hfalse
            cases hfalse
        | false =>
            by_cases hconc :
                row.concurrentAudits ≥ MAX_CONCURRENT_AUDITS req.userRole
            · have hr : rplTrackRun gs now db req =
                  (some .ConcurrencyExceeded, db) := by
                unfold rplTrackRun rplTrack epistemicHygieneCheck
                simp [hlk, hcool, hconc]
              refine ⟨⟨.ConcurrencyExceeded, by rw [hr]⟩, by rw [hr],
                fun hrows => ?_⟩
              have hlt := (hrows row rfl).2
              omega
            · have hr : rplTrackRun gs now db req =
                  (some .ConfidenceCapExceeded, db) := by
                unfold rplTrackRun rplTrack epistemicHygieneCheck
                simp [hlk, hcool, hconc, hcc]
              exact ⟨⟨.ConfidenceCapExceeded, by rw [hr]⟩, by rw [hr],
                fun _ => by rw [hr]⟩
  · intro steps
    induction steps with
    | nil =>
        intro db h f hf
        exact h f (by simpa [runTrackTrace] using hf)
    | cons s rest ih =>
        intro db h
        have hstep := rplTrackRun_preserves_cap s.1 s.2.1 db s.2.2 h
        have hfold : runTrackTrace (s :: rest) db =
            runTrackTrace rest ((rplTrackRun s.1 s.2.1 db s.2.2).2) := by
          simp [runTrackTrace]
        rw [hfold]
        exact ih _ hstep

/-- C1 witness: a submission declaring confidence 0.96 against an empty gate
state is rejected with ConfidenceCapExceeded and writes nothing, and a
one-step trace from an empty table keeps every frame under the cap. -/
theorem rpl_confidence_cap_enforced_witness :
    (rplTrackRun { observerMetrics := [] } 0 [] overCapRequest).1
      = some .ConfidenceCapExceeded ∧
    (rplTrackRun { observerMetrics := [] } 0 [] overCapRequest).2 = [] ∧
    ∀ f ∈ runTrackTrace [({ observerMetrics := [] }, 0, underCapRequest)] [],
      f.confidenceWeight ≤ MAX_CONFIDENCE_WEIGHT := by
  refine ⟨?_, ?_, ?_⟩
  · exact (rpl_confidence_cap_enforced.1 { observerMetrics := [] } 0 []
      overCapRequest (24/25) rfl
      (by with_unfolding_all (exact of_decide_eq_true rfl))).2.2
      (fun row hrow => by cases hrow)
  · exact (rpl_confidence_cap_enforced.1 { observerMetrics := [] } 0 []
      overCapRequest (24/25) rfl
      (by with_unfolding_all (exact of_decide_eq_true rfl))).2.1
  · exact rpl_confidence_cap_enforced.2
      [({ observerMetrics := [] }, 0, underCapRequest)] []
      (fun f hf => by cases hf)

end ClaimC1

section ClaimC3

/-- C3: every calculator degrades to its neutral value instead of failing:
calculateEntropy returns gap 0 and trend STABLE below 20 questions (hence on
any unknown or empty domain key), calculateDrift returns overall drift 0 and
trend STABLE for an unknown purpose or fewer than 10 events, and each
layer's calculateResilience returns 100 on an empty store.  All embedded
calculators are total functions: no input raises an error. -/
theorem calculators_degrade_to_neutral_values :
    (∀ (st : QEMState) (now : ℤ) (domain : String),
        ((st.questionRegistry.lookup domain).getD []).length < 20 →
        calculateEntropy st now domain =
          { domain := domain, historicalFrequency := 0, currentFrequency := 0,
            gapScore := 0, trend := .STABLE, lastCalculated := now }) ∧
    (∀ (st : PDSState) (now : ℤ) (purposeId : String),
        st.purposes.lookup purposeId = none ∨
          ((st.usageEvents.lookup purposeId).getD []).length < 10 →
        calculateDrift st now purposeId =
          { purposeId := purposeId, semanticDivergence := some 0,
            usagePatternShift := 0, overallDrift := some 0, trend := .STABLE,
            lastCalculated := now }) ∧
    (∀ now : ℤ, qemCalculateResilience qemEmpty now = 100) ∧
    loaCalculateResilience loaEmpty = 100 ∧
    oliCalculateResilience oliEmpty = 100 ∧
    (∀ now : ℤ, pdsCalculateResilience pdsEmpty now = some 100) ∧
    rplCalculateResilience [] = 100 := by
  refine ⟨?_, ?_, fun now => by with_unfolding_all rfl,
    by with_unfolding_all rfl, by with_unfolding_all rfl,
    fun now => by with_unfolding_all rfl, by with_unfolding_all rfl⟩
  · intro st now domain h
    unfold calculateEntropy
    dsimp only
    rw [if_pos h]
  · intro st now purposeId h
    unfold calculateDrift
    cases hlk : st.purposes.lookup purposeId with
    | none => rfl
    | some purpose =>
        rcases h with h | h
        · rw [hlk] at h
          cases h
        · dsimp only
          rw [if_pos h]

/-- C3 witness: the neutral values on concrete unknown keys and empty
stores. -/
theorem calculators_degrade_to_neutral_values_witness :
    calculateEntropy qemEmpty 0 "unknown-domain" =
      { domain := "unknown-domain", historicalFrequency := 0,
        currentFrequency := 0, gapScore := 0, trend := .STABLE,
        lastCalculated := 0 } ∧
    calculateDrift pdsEmpty 0 "unknown-purpose" =
      { purposeId := "unknown-purpose", semanticDivergence := some 0,
        usagePatternShift := 0, overallDrift := some 0, trend := .STABLE,
        lastCalculated := 0 } ∧
    qemCalculateResilience qemEmpty 0 = 100 :=
  ⟨calculators_degrade_to_neutral_values.1 qemEmpty 0 "unknown-domain"
      (by with_unfolding_all (exact of_decide_eq_true rfl)),
   calculators_degrade_to_neutral_values.2.1 pdsEmpty 0 "unknown-purpose"
      (Or.inl (by with_unfolding_all rfl)),
   calculators_degrade_to_neutral_values.2.2.1 0⟩

end ClaimC3

section ClaimC7

/-- C7: against an existing purpose whose intent has at least one keyword, a
recommitment with keyword-overlap alignment below 0.7 is rejected with the
whole sentinel state unchanged (so a paused system stays paused with its
alerts open), while an alignment of at least 0.7 is accepted: the result is
true, exactly the alerts of that purpose are removed, the system is
unpaused, and the purpose's lastRecommitment is bumped to now. -/
theorem recommit_threshold_behaviour :
    ∀ (st : PDSState) (now : ℤ) (purposeId stmt : String)
      (purpose : SystemPurpose),
      st.purposes.lookup purposeId = some purpose →
      extractKeywords purpose.originalIntent ≠ [] →
      ((verifyRecommitmentAlignment purpose.originalIntent stmt < 7/10 →
          recommit st now purposeId stmt = (false, st)) ∧
        (7/10 ≤ verifyRecommitmentAlignment purpose.originalIntent stmt →
          (recommit st now purposeId stmt).1 = true ∧
          (recommit st now purposeId stmt).2.driftAlerts =
            st.driftAlerts.filter (fun a => !(a.purposeId == purposeId)) ∧
          (recommit st now purposeId stmt).2.systemPaused = false ∧
          (recommit st now purposeId stmt).2.purposes =
            setKV st.purposes purposeId
              { purpose with lastRecommitment := now })) := by
  intro st now purposeId stmt purpose hlk hne
  have hlen : (extractKeywords purpose.originalIntent).length ≠ 0 :=
    fun h0 => hne (List.length_eq_zero.mp h0)
  constructor
  · intro hlt
    unfold recommit
    rw [hlk]
    dsimp only
    rw [if_pos ⟨hlen, hlt⟩]
  · intro hge
    have hcond : ¬(¬extractKeywords purpose.originalIntent = [] ∧
        verifyRecommitmentAlignment purpose.originalIntent stmt < 7/10) :=
      fun hco => absurd hco.2 (not_lt.mpr hge)
    refine ⟨?_, ?_, ?_, ?_⟩ <;>
      simp [recommit, hlk, hcond]

/-- C7 witness: on the paused sentinel, a recommitment with zero keyword
overlap is rejected leaving the paused state intact, and a full-overlap
recommitment is accepted, clearing the open alert and resuming. -/
theorem recommit_threshold_behaviour_witness :
    recommit pausedSentinelState 5 "p1" "unrelated words entirely"
      = (false, pausedSentinelState) ∧
    pausedSentinelState.systemPaused = true ∧
    (recommit pausedSentinelState 5 "p1"
        "monitor institutional decisions drift").1 = true ∧
    (recommit pausedSentinelState 5 "p1"
        "monitor institutional decisions drift").2.driftAlerts = [] ∧
    (recommit pausedSentinelState 5 "p1"
        "monitor institutional decisions drift").2.systemPaused = false := by
  have hlow := recommit_threshold_behaviour pausedSentinelState 5 "p1"
    "unrelated words entirely" monitoredPurpose (by with_unfolding_all rfl)
    (by with_unfolding_all (exact of_decide_eq_true rfl))
  have hhigh := recommit_threshold_behaviour pausedSentinelState 5 "p1"
    "monitor institutional decisions drift" monitoredPurpose
    (by with_unfolding_all rfl)
    (by with_unfolding_all (exact of_decide_eq_true rfl))
  have hge : (7:ℚ)/10 ≤ verifyRecommitmentAlignment
      monitoredPurpose.originalIntent
      "monitor institutional decisions drift" := by
    with_unfolding_all (exact of_decide_eq_true rfl)
  refine ⟨?_, rfl, (hhigh.2 hge).1, ?_, (hhigh.2 hge).2.2.1⟩
  · exact hlow.1 (by with_unfolding_all (exact of_decide_eq_true rfl))
  · exact ((hhigh.2 hge).2.1).trans (by with_unfolding_all rfl)

end ClaimC7

section ClaimC9

set_option maxRecDepth 8000 in
/-- C9 counterexample: nine outcomes with a 200-day lag for beneficiary b.
After the 8th, the running average risk first exceeds 7 (57/8) and an alert
is pushed; the 9th outcome changes the pattern string's decision count from
8 to 9, so the dedup check misses and a second alert for the same
beneficiary is pushed at the very same instant (0 days < 7 days later). -/
theorem loa_repeat_alert_same_beneficiary :
    ((loaRunState 8).lagAlerts.map (fun a => a.pattern)) =
      ["b - 8 decisions with avg 200-day lag"] ∧
    ((loaRunState 9).lagAlerts.map (fun a => a.pattern)) =
      ["b - 8 decisions with avg 200-day lag",
       "b - 9 decisions with avg 200-day lag"] ∧
    ((loaRunState 9).lagAlerts.map (fun a => a.detectedAt)) = [0, 0] := by
  with_unfolding_all (exact of_decide_eq_true rfl)

/-- C9 amended: a qualifying pattern (average risk > 7, ≥ 3 decisions)
triggers an alert, and the dedup suppresses the repeat only when an alert
with the *identical pattern string* (same beneficiary, same decision count,
same rounded average lag) exists within the last 7 days; it does not key on
the beneficiary, so tracking one further outcome (which changes the decision
count in the string) lets a repeat alert for the same beneficiary through
immediately, as the 8th-then-9th outcome run shows. -/
theorem loa_alert_dedup_amended :
    (∀ (st : LOAState) (now : ℤ) (p : BeneficiaryPattern)
        (affected : List String),
        (st.lagAlerts.any (fun a =>
          a.pattern == (mkLagAlert now p affected).pattern &&
          decide (a.detectedAt > now - 7 * 24 * 60 * 60 * 1000))) = true →
        triggerLagAlert st now p affected = st) ∧
    (∀ (st : LOAState) (now : ℤ) (p : BeneficiaryPattern)
        (affected : List String),
        (st.lagAlerts.any (fun a =>
          a.pattern == (mkLagAlert now p affected).pattern &&
          decide (a.detectedAt > now - 7 * 24 * 60 * 60 * 1000))) = false →
        (triggerLagAlert st now p affected).lagAlerts =
          st.lagAlerts ++ [mkLagAlert now p affected]) ∧
    (loaRunState 8).lagAlerts.length = 1 ∧
    (loaRunState 9).lagAlerts.length = 2 ∧
    ((loaRunState 9).lagAlerts.map (fun a => a.detectedAt)) = [0, 0] := by
  refine ⟨?_, ?_, ?_, ?_, ?_⟩
  · intro st now p affected h
    unfold triggerLagAlert
    dsimp only
    rw [h]
    rfl
  · intro st now p affected h
    unfold triggerLagAlert
    dsimp only
    rw [h]
    rfl
  · with_unfolding_all rfl
  · with_unfolding_all rfl
  · with_unfolding_all (exact of_decide_eq_true rfl)

/-- C9 witness: on the 8-outcome state, a pattern whose alert string differs
from the recorded one passes the dedup check and is appended. -/
theorem loa_alert_dedup_amended_witness :
    (triggerLagAlert (loaRunState 8) 0
        (⟨"b", 8, 200, 57, 0, 0⟩ : BeneficiaryPattern) []).lagAlerts =
      (loaRunState 8).lagAlerts ++
        [mkLagAlert 0 (⟨"b", 8, 200, 57, 0, 0⟩ : BeneficiaryPattern) []] :=
  loa_alert_dedup_amended.2.1 (loaRunState 8) 0
    (⟨"b", 8, 200, 57, 0, 0⟩ : BeneficiaryPattern) []
    (by with_unfolding_all rfl)

end ClaimC9

section ClaimC10

/-- C10 counterexample: a purpose whose declared intent ("a bb ccc") yields
an empty keyword set, with 10 recorded usage events.  Each event's
divergence contribution is the JS value 0/0 = NaN (modelled `none`), not 0,
and the NaN propagates into the overallDrift magnitude itself; only the
trend comparison masks it (NaN comparisons are false), degrading to STABLE. -/
theorem semantic_divergence_nan_reaches_drift :
    extractKeywords emptyIntentPurpose.originalIntent = [] ∧
    ((emptyIntentState.usageEvents.lookup "p").getD []).length = 10 ∧
    (calculateDrift emptyIntentState 0 "p").semanticDivergence = none ∧
    (calculateDrift emptyIntentState 0 "p").overallDrift = none := by
  with_unfolding_all (exact of_decide_eq_true rfl)

/-- The nanSum of a nonempty all-NaN list is NaN. -/
lemma nanSum_all_none (l : List (Option ℚ)) (hne : l ≠ [])
    (h : ∀ x ∈ l, x = none) : nanSum l = none := by
  cases l with
  | nil => exact absurd rfl hne
  | cons x xs =>
      have hx := h x (List.mem_cons_self _ _)
      subst hx
      unfold nanSum
      rw [List.foldl_cons]
      exact foldl_nanAdd_none xs

/-- C10 amended: for every purpose whose intent yields an empty keyword set
and which has at least 10 usage events, each event's divergence contribution
is NaN (0/0), the semantic divergence and the overallDrift metric are NaN
rather than numbers, no exception is raised, and the trend degrades to
STABLE because NaN comparisons are false. -/
theorem empty_intent_keywords_nan_amended :
    ∀ (st : PDSState) (now : ℤ) (purposeId : String)
      (purpose : SystemPurpose),
      st.purposes.lookup purposeId = some purpose →
      extractKeywords purpose.originalIntent = [] →
      10 ≤ ((st.usageEvents.lookup purposeId).getD []).length →
      (calculateDrift st now purposeId).semanticDivergence = none ∧
      (calculateDrift st now purposeId).overallDrift = none ∧
      (calculateDrift st now purposeId).trend = .STABLE := by
  intro st now purposeId purpose hlk hkw hlen
  set events := (st.usageEvents.lookup purposeId).getD [] with hev
  have hne : ¬ events.length < 10 := by omega
  have hrec : takeLast 20 events ≠ [] := by
    have hdrop : (takeLast 20 events).length = events.length -
        (events.length - 20) := List.length_drop _ _
    intro hnil
    rw [hnil] at hdrop
    simp at hdrop
    omega
  have hdiv : calculateSemanticDivergence purpose events = none := by
    unfold calculateSemanticDivergence
    rw [hkw]
    have hmapAll : ∀ l : List UsageEvent, l.map (perEventContribution [])
        = l.map (fun _ => (none : Option ℚ)) := by
      intro l
      induction l with
      | nil => rfl
      | cons e es ih =>
          rw [List.map_cons, List.map_cons, ih]
          rfl
    have hmap : (takeLast 20 events).map (perEventContribution [])
        = (takeLast 20 events).map (fun _ => (none : Option ℚ)) :=
      hmapAll _
    dsimp only
    rw [hmap]
    have : nanSum ((takeLast 20 events).map (fun _ => (none : Option ℚ)))
        = none := by
      apply nanSum_all_none
      · simpa using hrec
      · intro x hx
        rcases List.mem_map.mp hx with ⟨e, _, he⟩
        exact he.symm
    rw [this]
    rfl
  refine ⟨?_, ?_, ?_⟩ <;>
    simp [calculateDrift, hlk, ← hev, hne, hdiv]

/-- C10 witness: the amended theorem evaluated on the concrete
empty-keyword purpose with its 10 events. -/
theorem empty_intent_keywords_nan_amended_witness :
    (calculateDrift emptyIntentState 0 "p").semanticDivergence = none ∧
    (calculateDrift emptyIntentState 0 "p").overallDrift = none ∧
    (calculateDrift emptyIntentState 0 "p").trend = .STABLE :=
  empty_intent_keywords_nan_amended emptyIntentState 0 "p" emptyIntentPurpose
    (by with_unfolding_all rfl) (by with_unfolding_all rfl)
    (by with_unfolding_all (exact of_decide_eq_true rfl))

end ClaimC10

section ClaimC8

set_option maxRecDepth 4000 in
/-- C8 counterexample: a reachable QEM store (20 questions registered through
registerQuestion: 1 in the historical window, 19 recent) has a gap score of
-5600, so calculateResilience returns 5700, far above 100: the QEM health
score is not clamped above. -/
theorem qem_resilience_exceeds_100 :
    qemCalculateResilience risingEntropyState entropyNow = 5700 ∧
    100 < qemCalculateResilience risingEntropyState entropyNow := by
  with_unfolding_all (exact of_decide_eq_true rfl)

/-- A defined per-event contribution lies in the unit interval. -/
lemma perEventContribution_bound (ik : List String) (e : UsageEvent) (q : ℚ)
    (h : perEventContribution ik e = some q) : 0 ≤ q ∧ q ≤ 1 := by
  unfold perEventContribution at h
  dsimp only at h
  split at h
  · cases h
  · rcases Option.some.inj h with rfl
    apply div_unit_interval
    · positivity
    · exact_mod_cast List.length_filter_le _ ik

/-- A defined semantic divergence lies in the unit interval. -/
lemma semanticDivergence_some_bound (purpose : SystemPurpose)
    (events : List UsageEvent) (d : ℚ)
    (hd : calculateSemanticDivergence purpose events = some d) :
    0 ≤ d ∧ d ≤ 1 := by
  unfold calculateSemanticDivergence at hd
  dsimp only at hd
  cases hms : nanSum ((takeLast 20 events).map (perEventContribution
      (extractKeywords purpose.originalIntent))) with
  | none =>
      rw [hms] at hd
      simp at hd
  | some s =>
      rw [hms] at hd
      dsimp only at hd
      by_cases h0 : (takeLast 20 events).length = 0
      · rw [if_pos h0] at hd
        simp at hd
      · rw [if_neg h0] at hd
        simp only [Option.map_some'] at hd
        rcases Option.some.inj hd with rfl
        have hsb : 0 ≤ s ∧ s ≤ ((takeLast 20 events).map (perEventContribution
            (extractKeywords purpose.originalIntent))).length := by
          apply nanSum_unit_bound _ _ _ hms
          intro x hx q hq
          rcases List.mem_map.mp hx with ⟨e, _, he⟩
          exact perEventContribution_bound _ e q (he.trans hq)
        rw [List.length_map] at hsb
        have hdiv : 0 ≤ s / ((takeLast 20 events).length : ℚ) ∧
            s / ((takeLast 20 events).length : ℚ) ≤ 1 := by
          apply div_unit_interval _ _ hsb.1
          exact_mod_cast hsb.2
        constructor <;> linarith [hdiv.1, hdiv.2]

/-- The usage-pattern shift always lies in the unit interval. -/
lemma usagePatternShift_bound (events : List UsageEvent) :
    0 ≤ calculateUsagePatternShift events ∧
    calculateUsagePatternShift events ≤ 1 := by
  unfold calculateUsagePatternShift
  by_cases h20 : events.length < 20
  · rw [if_pos h20]
    norm_num
  · rw [if_neg h20]
    dsimp only
    set E := ((events.take 10).map (fun e => e.eventType)).dedup with hE
    set R := ((takeLast 10 events).map (fun e => e.eventType)).dedup with hR
    have hIU : (E.filter (fun t => R.contains t)).length ≤
        ((E ++ R).dedup).length := by
      apply List.Subperm.length_le
      apply List.subperm_of_subset
      · exact List.Nodup.filter _ (List.nodup_dedup _)
      · intro x hx
        exact List.mem_dedup.mpr
          (List.mem_append_left _ (List.mem_of_mem_filter hx))
    have hU : ((E ++ R).dedup).length ≠ 0 := by
      intro h0
      have hnil : (E ++ R).dedup = [] := List.length_eq_zero.mp h0
      rw [List.dedup_eq_nil] at hnil
      have hEnil : E = [] := (List.append_eq_nil.mp hnil).1
      rw [hE, List.dedup_eq_nil, List.map_eq_nil_iff] at hEnil
      have h10 : (events.take 10).length = min 10 events.length :=
        List.length_take _ _
      rw [hEnil] at h10
      simp at h10
      omega
    have hjac : 0 ≤ ((E.filter (fun t => R.contains t)).length : ℚ) /
        (((E ++ R).dedup).length : ℚ) ∧
        ((E.filter (fun t => R.contains t)).length : ℚ) /
        (((E ++ R).dedup).length : ℚ) ≤ 1 := by
      apply div_unit_interval
      · positivity
      · exact_mod_cast hIU
    constructor <;> linarith [hjac.1, hjac.2]

/-- A defined overall drift lies in the unit interval. -/
lemma calculateDrift_overallDrift_bound (st : PDSState) (now : ℤ)
    (purposeId : String) (q : ℚ)
    (h : (calculateDrift st now purposeId).overallDrift = some q) :
    0 ≤ q ∧ q ≤ 1 := by
  unfold calculateDrift at h
  cases hlk : st.purposes.lookup purposeId with
  | none =>
      rw [hlk] at h
      dsimp only at h
      rcases Option.some.inj h with rfl
      norm_num
  | some purpose =>
      rw [hlk] at h
      dsimp only at h
      by_cases hlen : ((st.usageEvents.lookup purposeId).getD []).length < 10
      · rw [if_pos hlen] at h
        dsimp only at h
        rcases Option.some.inj h with rfl
        norm_num
      · rw [if_neg hlen] at h
        dsimp only at h
        rw [Option.map_eq_some'] at h
        obtain ⟨d, hsd, hq⟩ := h
        have hd := semanticDivergence_some_bound purpose _ d hsd
        have hs := usagePatternShift_bound
          ((st.usageEvents.lookup purposeId).getD [])
        subst hq
        constructor <;> linarith [hd.1, hd.2, hs.1, hs.2]

/-- Every per-framework accumulated weight is nonnegative and bounded by the
total weight, when all confidence weights are nonnegative. -/
lemma rplFrameworkWeights_bound (frames : List RPLFrame)
    (h : ∀ f ∈ frames, 0 ≤ f.confidenceWeight) :
    ∀ e ∈ rplFrameworkWeights frames, 0 ≤ e.2 ∧
      e.2 ≤ (frames.map (fun f => f.confidenceWeight)).sum := by
  intro e he
  unfold rplFrameworkWeights at he
  rcases List.mem_map.mp he with ⟨k, _, rfl⟩
  constructor
  · apply sum_map_nonneg
    intro f hf
    exact h f (List.mem_of_mem_filter hf)
  · exact sum_map_filter_le _ _ frames h

/-- The running maximum of per-framework dominance shares stays in the unit
interval. -/
lemma maxDominance_fold_bound (T : ℚ) :
    ∀ (l : List (String × ℚ)) (md : ℚ), 0 ≤ md → md ≤ 1 →
      (∀ e ∈ l, 0 ≤ e.2 ∧ e.2 ≤ T) →
      0 ≤ l.foldl (fun md e => if e.2 / T > md then e.2 / T else md) md ∧
      l.foldl (fun md e => if e.2 / T > md then e.2 / T else md) md ≤ 1 := by
  intro l
  induction l with
  | nil =>
      intro md h0 h1 _
      exact ⟨h0, h1⟩
  | cons e es ih =>
      intro md h0 h1 hmem
      have he := hmem e (List.mem_cons_self _ _)
      have hdq := div_unit_interval e.2 T he.1 he.2
      rw [List.foldl_cons]
      apply ih
      · by_cases hc : e.2 / T > md
        · rw [if_pos hc]; exact hdq.1
        · rw [if_neg hc]; exact h0
      · by_cases hc : e.2 / T > md
        · rw [if_pos hc]; exact hdq.2
        · rw [if_neg hc]; exact h1
      · intro x hx
        exact hmem x (List.mem_cons_of_mem _ hx)

/-- C8 amended: the LOA and OLI health scores always lie in [0, 100]; the RPL
score lies in [0, 100] whenever all stored confidence weights are
nonnegative (as the schema's CHECK constraint guarantees for API-fed data);
the PDS score lies in [0, 100] whenever it is a number at all (it is NaN
when some purpose's drift is NaN, see the C10 theorems); but the QEM score
is only bounded below: it is always ≥ 0, and the reachable 20-question store
with a rising question rate pushes it to 5700 > 100. -/
theorem resilience_range_amended :
    (∀ (st : QEMState) (now : ℤ), 0 ≤ qemCalculateResilience st now) ∧
    (100 < qemCalculateResilience risingEntropyState entropyNow) ∧
    (∀ st : LOAState, 0 ≤ loaCalculateResilience st ∧
      loaCalculateResilience st ≤ 100) ∧
    (∀ st : OLIState, 0 ≤ oliCalculateResilience st ∧
      oliCalculateResilience st ≤ 100) ∧
    (∀ frames : List RPLFrame, (∀ f ∈ frames, 0 ≤ f.confidenceWeight) →
      0 ≤ rplCalculateResilience frames ∧
      rplCalculateResilience frames ≤ 100) ∧
    (∀ (st : PDSState) (now : ℤ) (r : ℤ),
      pdsCalculateResilience st now = some r → 0 ≤ r ∧ r ≤ 100) := by
  refine ⟨?_, ?_, ?_, ?_, ?_, ?_⟩
  · intro st now
    unfold qemCalculateResilience
    dsimp only
    split
    · norm_num
    · exact le_max_left _ _
  · exact qem_resilience_exceeds_100.2
  · intro st
    unfold loaCalculateResilience
    dsimp only
    by_cases hn : st.outcomes.length = 0
    · rw [if_pos hn]
      norm_num
    · rw [if_neg hn]
      have hk : ((st.outcomes.filter
          (fun o => decide (o.riskScore > 7))).length : ℚ) ≤
          (st.outcomes.length : ℚ) := by
        exact_mod_cast List.length_filter_le _ _
      have hfrac := div_unit_interval _ _
        (by positivity : (0:ℚ) ≤ ((st.outcomes.filter
          (fun o => decide (o.riskScore > 7))).length : ℚ)) hk
      constructor
      · exact le_max_left _ _
      · apply max_le (by norm_num)
        apply jsRound_le_of_le
        push_cast
        nlinarith [hfrac.1, hfrac.2]
  · intro st
    unfold oliCalculateResilience
    dsimp only
    by_cases hn : st.observers.length = 0
    · rw [if_pos hn]
      norm_num
    · rw [if_neg hn]
      have hk : (((st.observers.map (fun e => e.2)).filter
          (fun m => decide (m.fatigueRisk = .high))).length : ℚ) ≤
          (st.observers.length : ℚ) := by
        have h1 := List.length_filter_le
          (fun m => decide (m.fatigueRisk = FatigueRisk.high))
          (st.observers.map (fun e => e.2))
        rw [List.length_map] at h1
        exact_mod_cast h1
      have hfrac := div_unit_interval _ _
        (by positivity : (0:ℚ) ≤ (((st.observers.map (fun e => e.2)).filter
          (fun m => decide (m.fatigueRisk = .high))).length : ℚ)) hk
      constructor
      · exact le_max_left _ _
      · apply max_le (by norm_num)
        apply jsRound_le_of_le
        push_cast
        nlinarith [hfrac.1, hfrac.2]
  · intro frames h
    unfold rplCalculateResilience
    dsimp only
    have hmd := maxDominance_fold_bound
      ((frames.map (fun f => f.confidenceWeight)).sum)
      (rplFrameworkWeights frames) 0 le_rfl (by norm_num)
      (rplFrameworkWeights_bound frames h)
    constructor
    · apply jsRound_nonneg
      nlinarith [hmd.1, hmd.2]
    · apply jsRound_le_of_le
      push_cast
      nlinarith [hmd.1, hmd.2]
  · intro st now r hr
    unfold pdsCalculateResilience at hr
    dsimp only at hr
    by_cases hn : (st.purposes.map (fun e => e.1)).length = 0
    · rw [if_pos hn] at hr
      rcases Option.some.inj hr with rfl
      norm_num
    · rw [if_neg hn] at hr
      rw [Option.map_eq_some'] at hr
      obtain ⟨t, hts, htr⟩ := hr
      have htb : 0 ≤ t ∧ t ≤ ((st.purposes.map (fun e => e.1)).map
          (fun pid => (calculateDrift st now pid).overallDrift)).length := by
        apply nanSum_unit_bound _ _ _ hts
        intro x hx q hq
        rcases List.mem_map.mp hx with ⟨pid, _, he⟩
        exact calculateDrift_overallDrift_bound st now pid q (he.trans hq)
      rw [List.length_map] at htb
      have hfrac := div_unit_interval t
        ((st.purposes.map (fun e => e.1)).length : ℚ) htb.1
        (by exact_mod_cast htb.2)
      subst htr
      constructor
      · exact le_max_left _ _
      · apply max_le (by norm_num)
        apply jsRound_le_of_le
        push_cast
        nlinarith [hfrac.1, hfrac.2]

/-- C8 witness: the amended bounds evaluated on concrete states: the empty
LOA and OLI stores, a one-frame RPL store, a defined PDS score, and the
QEM store that overshoots. -/
theorem resilience_range_amended_witness :
    (0 ≤ loaCalculateResilience loaEmpty ∧
      loaCalculateResilience loaEmpty ≤ 100) ∧
    (0 ≤ rplCalculateResilience [⟨"Devil_Lens_Critique", 1/2⟩] ∧
      rplCalculateResilience [⟨"Devil_Lens_Critique", 1/2⟩] ≤ 100) ∧
    (0 ≤ (100:ℤ) ∧ (100:ℤ) ≤ 100) ∧
    0 ≤ qemCalculateResilience qemEmpty 0 :=
  ⟨resilience_range_amended.2.2.1 loaEmpty,
   resilience_range_amended.2.2.2.2.1 [⟨"Devil_Lens_Critique", 1/2⟩]
     (by intro f hf
         rcases List.mem_singleton.mp hf with rfl
         norm_num),
   resilience_range_amended.2.2.2.2.2 pdsEmpty 0 100
     (by with_unfolding_all rfl),
   resilience_range_amended.1 qemEmpty 0⟩

end ClaimC8

end EchoDash
